import Mathlib

/-!
Verification development for the Bengali writing-assistant Word add-in
(`src/App.tsx`, `src/utils/word.ts`, and the single-file variant).
Strings are modelled as lists of Unicode code points (`List Nat`); the
Word document is a list of characters each carrying a highlight
attribute; the host search engine (`body.search`) is an external
capability and is taken as a function parameter.
-/

namespace UpdateV2

/-- The set of characters recognised as whitespace by the ECMAScript
`\s` character class and by `String.prototype.trim`: tab, LF, VT, FF,
CR, space, NBSP, and the Unicode space separators. -/
def isSpaceJS (c : Nat) : Bool :=
  c = 9 || c = 10 || c = 11 || c = 12 || c = 13 || c = 32 ||
  c = 160 || c = 5760 || (8192 ≤ c && c ≤ 8202) || c = 8232 ||
  c = 8233 || c = 8239 || c = 8287 || c = 12288 || c = 65279

/-- Characters matched by the regular expression class `[\r\n]`. -/
def isCRLF (c : Nat) : Bool :=
  c = 13 || c = 10

/-- Remove the maximal trailing run of whitespace characters, as the
tail half of ECMAScript `String.prototype.trim`. -/
def trimEnd : List Nat → List Nat
  | [] => []
  | c :: rest =>
    let r := trimEnd rest
    if r = [] then (if isSpaceJS c then [] else [c]) else c :: r

/-- ECMAScript `String.prototype.trim`: drop leading and trailing
whitespace. -/
def trim (l : List Nat) : List Nat :=
  trimEnd (l.dropWhile isSpaceJS)

/-- ECMAScript `str.replace(/p+/g, ' ')` for a character class `p`:
each maximal run of characters satisfying `p` is replaced by a single
space (code point 32). -/
def collapseRuns (p : Nat → Bool) : List Nat → List Nat
  | [] => []
  | c :: rest =>
    if p c then
      match rest with
      | [] => [32]
      | d :: _ => if p d then collapseRuns p rest else 32 :: collapseRuns p rest
    else c :: collapseRuns p rest

set_option maxHeartbeats 4000000 in
/-- The Unicode simple lowercase mapping (Unicode character database
version 14.0.0): every code point whose default lowercase is a single,
different code point — except U+03A3, whose mapping is contextual, and
U+0130, whose lowercase is two code points; both are handled in
`lowerChar`. Stored as buckets keyed by `c / 64`, bucket ids and the
keys inside each bucket ascending, so lookups can stop early. -/
def lowerBuckets : List (Nat × List (Nat × Nat)) := [
  (1, [(65, 97), (66, 98), (67, 99), (68, 100), (69, 101), (70, 102), (71, 103), (72, 104), (73, 105), (74, 106), (75, 107), (76, 108), (77, 109), (78, 110), (79, 111), (80, 112), (81, 113), (82, 114), (83, 115), (84, 116), (85, 117), (86, 118), (87, 119), (88, 120), (89, 121), (90, 122)]),
  (3, [(192, 224), (193, 225), (194, 226), (195, 227), (196, 228), (197, 229), (198, 230), (199, 231), (200, 232), (201, 233), (202, 234), (203, 235), (204, 236), (205, 237), (206, 238), (207, 239), (208, 240), (209, 241), (210, 242), (211, 243), (212, 244), (213, 245), (214, 246), (216, 248), (217, 249), (218, 250), (219, 251), (220, 252), (221, 253), (222, 254)]),
  (4, [(256, 257), (258, 259), (260, 261), (262, 263), (264, 265), (266, 267), (268, 269), (270, 271), (272, 273), (274, 275), (276, 277), (278, 279), (280, 281), (282, 283), (284, 285), (286, 287), (288, 289), (290, 291), (292, 293), (294, 295), (296, 297), (298, 299), (300, 301), (302, 303), (306, 307), (308, 309), (310, 311), (313, 314), (315, 316), (317, 318), (319, 320)]),
  (5, [(321, 322), (323, 324), (325, 326), (327, 328), (330, 331), (332, 333), (334, 335), (336, 337), (338, 339), (340, 341), (342, 343), (344, 345), (346, 347), (348, 349), (350, 351), (352, 353), (354, 355), (356, 357), (358, 359), (360, 361), (362, 363), (364, 365), (366, 367), (368, 369), (370, 371), (372, 373), (374, 375), (376, 255), (377, 378), (379, 380), (381, 382)]),
  (6, [(385, 595), (386, 387), (388, 389), (390, 596), (391, 392), (393, 598), (394, 599), (395, 396), (398, 477), (399, 601), (400, 603), (401, 402), (403, 608), (404, 611), (406, 617), (407, 616), (408, 409), (412, 623), (413, 626), (415, 629), (416, 417), (418, 419), (420, 421), (422, 640), (423, 424), (425, 643), (428, 429), (430, 648), (431, 432), (433, 650), (434, 651), (435, 436), (437, 438), (439, 658), (440, 441), (444, 445)]),
  (7, [(452, 454), (453, 454), (455, 457), (456, 457), (458, 460), (459, 460), (461, 462), (463, 464), (465, 466), (467, 468), (469, 470), (471, 472), (473, 474), (475, 476), (478, 479), (480, 481), (482, 483), (484, 485), (486, 487), (488, 489), (490, 491), (492, 493), (494, 495), (497, 499), (498, 499), (500, 501), (502, 405), (503, 447), (504, 505), (506, 507), (508, 509), (510, 511)]),
  (8, [(512, 513), (514, 515), (516, 517), (518, 519), (520, 521), (522, 523), (524, 525), (526, 527), (528, 529), (530, 531), (532, 533), (534, 535), (536, 537), (538, 539), (540, 541), (542, 543), (544, 414), (546, 547), (548, 549), (550, 551), (552, 553), (554, 555), (556, 557), (558, 559), (560, 561), (562, 563), (570, 11365), (571, 572), (573, 410), (574, 11366)]),
  (9, [(577, 578), (579, 384), (580, 649), (581, 652), (582, 583), (584, 585), (586, 587), (588, 589), (590, 591)]),
  (13, [(880, 881), (882, 883), (886, 887), (895, 1011)]),
  (14, [(902, 940), (904, 941), (905, 942), (906, 943), (908, 972), (910, 973), (911, 974), (913, 945), (914, 946), (915, 947), (916, 948), (917, 949), (918, 950), (919, 951), (920, 952), (921, 953), (922, 954), (923, 955), (924, 956), (925, 957), (926, 958), (927, 959), (928, 960), (929, 961), (932, 964), (933, 965), (934, 966), (935, 967), (936, 968), (937, 969), (938, 970), (939, 971)]),
  (15, [(975, 983), (984, 985), (986, 987), (988, 989), (990, 991), (992, 993), (994, 995), (996, 997), (998, 999), (1000, 1001), (1002, 1003), (1004, 1005), (1006, 1007), (1012, 952), (1015, 1016), (1017, 1010), (1018, 1019), (1021, 891), (1022, 892), (1023, 893)]),
  (16, [(1024, 1104), (1025, 1105), (1026, 1106), (1027, 1107), (1028, 1108), (1029, 1109), (1030, 1110), (1031, 1111), (1032, 1112), (1033, 1113), (1034, 1114), (1035, 1115), (1036, 1116), (1037, 1117), (1038, 1118), (1039, 1119), (1040, 1072), (1041, 1073), (1042, 1074), (1043, 1075), (1044, 1076), (1045, 1077), (1046, 1078), (1047, 1079), (1048, 1080), (1049, 1081), (1050, 1082), (1051, 1083), (1052, 1084), (1053, 1085), (1054, 1086), (1055, 1087), (1056, 1088), (1057, 1089), (1058, 1090), (1059, 1091), (1060, 1092), (1061, 1093), (1062, 1094), (1063, 1095), (1064, 1096), (1065, 1097), (1066, 1098), (1067, 1099), (1068, 1100), (1069, 1101), (1070, 1102), (1071, 1103)]),
  (17, [(1120, 1121), (1122, 1123), (1124, 1125), (1126, 1127), (1128, 1129), (1130, 1131), (1132, 1133), (1134, 1135), (1136, 1137), (1138, 1139), (1140, 1141), (1142, 1143), (1144, 1145), (1146, 1147), (1148, 1149), (1150, 1151)]),
  (18, [(1152, 1153), (1162, 1163), (1164, 1165), (1166, 1167), (1168, 1169), (1170, 1171), (1172, 1173), (1174, 1175), (1176, 1177), (1178, 1179), (1180, 1181), (1182, 1183), (1184, 1185), (1186, 1187), (1188, 1189), (1190, 1191), (1192, 1193), (1194, 1195), (1196, 1197), (1198, 1199), (1200, 1201), (1202, 1203), (1204, 1205), (1206, 1207), (1208, 1209), (1210, 1211), (1212, 1213), (1214, 1215)]),
  (19, [(1216, 1231), (1217, 1218), (1219, 1220), (1221, 1222), (1223, 1224), (1225, 1226), (1227, 1228), (1229, 1230), (1232, 1233), (1234, 1235), (1236, 1237), (1238, 1239), (1240, 1241), (1242, 1243), (1244, 1245), (1246, 1247), (1248, 1249), (1250, 1251), (1252, 1253), (1254, 1255), (1256, 1257), (1258, 1259), (1260, 1261), (1262, 1263), (1264, 1265), (1266, 1267), (1268, 1269), (1270, 1271), (1272, 1273), (1274, 1275), (1276, 1277), (1278, 1279)]),
  (20, [(1280, 1281), (1282, 1283), (1284, 1285), (1286, 1287), (1288, 1289), (1290, 1291), (1292, 1293), (1294, 1295), (1296, 1297), (1298, 1299), (1300, 1301), (1302, 1303), (1304, 1305), (1306, 1307), (1308, 1309), (1310, 1311), (1312, 1313), (1314, 1315), (1316, 1317), (1318, 1319), (1320, 1321), (1322, 1323), (1324, 1325), (1326, 1327), (1329, 1377), (1330, 1378), (1331, 1379), (1332, 1380), (1333, 1381), (1334, 1382), (1335, 1383), (1336, 1384), (1337, 1385), (1338, 1386), (1339, 1387), (1340, 1388), (1341, 1389), (1342, 1390), (1343, 1391)]),
  (21, [(1344, 1392), (1345, 1393), (1346, 1394), (1347, 1395), (1348, 1396), (1349, 1397), (1350, 1398), (1351, 1399), (1352, 1400), (1353, 1401), (1354, 1402), (1355, 1403), (1356, 1404), (1357, 1405), (1358, 1406), (1359, 1407), (1360, 1408), (1361, 1409), (1362, 1410), (1363, 1411), (1364, 1412), (1365, 1413), (1366, 1414)]),
  (66, [(4256, 11520), (4257, 11521), (4258, 11522), (4259, 11523), (4260, 11524), (4261, 11525), (4262, 11526), (4263, 11527), (4264, 11528), (4265, 11529), (4266, 11530), (4267, 11531), (4268, 11532), (4269, 11533), (4270, 11534), (4271, 11535), (4272, 11536), (4273, 11537), (4274, 11538), (4275, 11539), (4276, 11540), (4277, 11541), (4278, 11542), (4279, 11543), (4280, 11544), (4281, 11545), (4282, 11546), (4283, 11547), (4284, 11548), (4285, 11549), (4286, 11550), (4287, 11551)]),
  (67, [(4288, 11552), (4289, 11553), (4290, 11554), (4291, 11555), (4292, 11556), (4293, 11557), (4295, 11559), (4301, 11565)]),
  (78, [(5024, 43888), (5025, 43889), (5026, 43890), (5027, 43891), (5028, 43892), (5029, 43893), (5030, 43894), (5031, 43895), (5032, 43896), (5033, 43897), (5034, 43898), (5035, 43899), (5036, 43900), (5037, 43901), (5038, 43902), (5039, 43903), (5040, 43904), (5041, 43905), (5042, 43906), (5043, 43907), (5044, 43908), (5045, 43909), (5046, 43910), (5047, 43911), (5048, 43912), (5049, 43913), (5050, 43914), (5051, 43915), (5052, 43916), (5053, 43917), (5054, 43918), (5055, 43919)]),
  (79, [(5056, 43920), (5057, 43921), (5058, 43922), (5059, 43923), (5060, 43924), (5061, 43925), (5062, 43926), (5063, 43927), (5064, 43928), (5065, 43929), (5066, 43930), (5067, 43931), (5068, 43932), (5069, 43933), (5070, 43934), (5071, 43935), (5072, 43936), (5073, 43937), (5074, 43938), (5075, 43939), (5076, 43940), (5077, 43941), (5078, 43942), (5079, 43943), (5080, 43944), (5081, 43945), (5082, 43946), (5083, 43947), (5084, 43948), (5085, 43949), (5086, 43950), (5087, 43951), (5088, 43952), (5089, 43953), (5090, 43954), (5091, 43955), (5092, 43956), (5093, 43957), (5094, 43958), (5095, 43959), (5096, 43960), (5097, 43961), (5098, 43962), (5099, 43963), (5100, 43964), (5101, 43965), (5102, 43966), (5103, 43967), (5104, 5112), (5105, 5113), (5106, 5114), (5107, 5115), (5108, 5116), (5109, 5117)]),
  (114, [(7312, 4304), (7313, 4305), (7314, 4306), (7315, 4307), (7316, 4308), (7317, 4309), (7318, 4310), (7319, 4311), (7320, 4312), (7321, 4313), (7322, 4314), (7323, 4315), (7324, 4316), (7325, 4317), (7326, 4318), (7327, 4319), (7328, 4320), (7329, 4321), (7330, 4322), (7331, 4323), (7332, 4324), (7333, 4325), (7334, 4326), (7335, 4327), (7336, 4328), (7337, 4329), (7338, 4330), (7339, 4331), (7340, 4332), (7341, 4333), (7342, 4334), (7343, 4335), (7344, 4336), (7345, 4337), (7346, 4338), (7347, 4339), (7348, 4340), (7349, 4341), (7350, 4342), (7351, 4343), (7352, 4344), (7353, 4345), (7354, 4346), (7357, 4349), (7358, 4350), (7359, 4351)]),
  (120, [(7680, 7681), (7682, 7683), (7684, 7685), (7686, 7687), (7688, 7689), (7690, 7691), (7692, 7693), (7694, 7695), (7696, 7697), (7698, 7699), (7700, 7701), (7702, 7703), (7704, 7705), (7706, 7707), (7708, 7709), (7710, 7711), (7712, 7713), (7714, 7715), (7716, 7717), (7718, 7719), (7720, 7721), (7722, 7723), (7724, 7725), (7726, 7727), (7728, 7729), (7730, 7731), (7732, 7733), (7734, 7735), (7736, 7737), (7738, 7739), (7740, 7741), (7742, 7743)]),
  (121, [(7744, 7745), (7746, 7747), (7748, 7749), (7750, 7751), (7752, 7753), (7754, 7755), (7756, 7757), (7758, 7759), (7760, 7761), (7762, 7763), (7764, 7765), (7766, 7767), (7768, 7769), (7770, 7771), (7772, 7773), (7774, 7775), (7776, 7777), (7778, 7779), (7780, 7781), (7782, 7783), (7784, 7785), (7786, 7787), (7788, 7789), (7790, 7791), (7792, 7793), (7794, 7795), (7796, 7797), (7798, 7799), (7800, 7801), (7802, 7803), (7804, 7805), (7806, 7807)]),
  (122, [(7808, 7809), (7810, 7811), (7812, 7813), (7814, 7815), (7816, 7817), (7818, 7819), (7820, 7821), (7822, 7823), (7824, 7825), (7826, 7827), (7828, 7829), (7838, 223), (7840, 7841), (7842, 7843), (7844, 7845), (7846, 7847), (7848, 7849), (7850, 7851), (7852, 7853), (7854, 7855), (7856, 7857), (7858, 7859), (7860, 7861), (7862, 7863), (7864, 7865), (7866, 7867), (7868, 7869), (7870, 7871)]),
  (123, [(7872, 7873), (7874, 7875), (7876, 7877), (7878, 7879), (7880, 7881), (7882, 7883), (7884, 7885), (7886, 7887), (7888, 7889), (7890, 7891), (7892, 7893), (7894, 7895), (7896, 7897), (7898, 7899), (7900, 7901), (7902, 7903), (7904, 7905), (7906, 7907), (7908, 7909), (7910, 7911), (7912, 7913), (7914, 7915), (7916, 7917), (7918, 7919), (7920, 7921), (7922, 7923), (7924, 7925), (7926, 7927), (7928, 7929), (7930, 7931), (7932, 7933), (7934, 7935)]),
  (124, [(7944, 7936), (7945, 7937), (7946, 7938), (7947, 7939), (7948, 7940), (7949, 7941), (7950, 7942), (7951, 7943), (7960, 7952), (7961, 7953), (7962, 7954), (7963, 7955), (7964, 7956), (7965, 7957), (7976, 7968), (7977, 7969), (7978, 7970), (7979, 7971), (7980, 7972), (7981, 7973), (7982, 7974), (7983, 7975), (7992, 7984), (7993, 7985), (7994, 7986), (7995, 7987), (7996, 7988), (7997, 7989), (7998, 7990), (7999, 7991)]),
  (125, [(8008, 8000), (8009, 8001), (8010, 8002), (8011, 8003), (8012, 8004), (8013, 8005), (8025, 8017), (8027, 8019), (8029, 8021), (8031, 8023), (8040, 8032), (8041, 8033), (8042, 8034), (8043, 8035), (8044, 8036), (8045, 8037), (8046, 8038), (8047, 8039)]),
  (126, [(8072, 8064), (8073, 8065), (8074, 8066), (8075, 8067), (8076, 8068), (8077, 8069), (8078, 8070), (8079, 8071), (8088, 8080), (8089, 8081), (8090, 8082), (8091, 8083), (8092, 8084), (8093, 8085), (8094, 8086), (8095, 8087), (8104, 8096), (8105, 8097), (8106, 8098), (8107, 8099), (8108, 8100), (8109, 8101), (8110, 8102), (8111, 8103), (8120, 8112), (8121, 8113), (8122, 8048), (8123, 8049), (8124, 8115)]),
  (127, [(8136, 8050), (8137, 8051), (8138, 8052), (8139, 8053), (8140, 8131), (8152, 8144), (8153, 8145), (8154, 8054), (8155, 8055), (8168, 8160), (8169, 8161), (8170, 8058), (8171, 8059), (8172, 8165), (8184, 8056), (8185, 8057), (8186, 8060), (8187, 8061), (8188, 8179)]),
  (132, [(8486, 969), (8490, 107), (8491, 229), (8498, 8526)]),
  (133, [(8544, 8560), (8545, 8561), (8546, 8562), (8547, 8563), (8548, 8564), (8549, 8565), (8550, 8566), (8551, 8567), (8552, 8568), (8553, 8569), (8554, 8570), (8555, 8571), (8556, 8572), (8557, 8573), (8558, 8574), (8559, 8575)]),
  (134, [(8579, 8580)]),
  (146, [(9398, 9424), (9399, 9425), (9400, 9426), (9401, 9427), (9402, 9428), (9403, 9429), (9404, 9430), (9405, 9431), (9406, 9432), (9407, 9433)]),
  (147, [(9408, 9434), (9409, 9435), (9410, 9436), (9411, 9437), (9412, 9438), (9413, 9439), (9414, 9440), (9415, 9441), (9416, 9442), (9417, 9443), (9418, 9444), (9419, 9445), (9420, 9446), (9421, 9447), (9422, 9448), (9423, 9449)]),
  (176, [(11264, 11312), (11265, 11313), (11266, 11314), (11267, 11315), (11268, 11316), (11269, 11317), (11270, 11318), (11271, 11319), (11272, 11320), (11273, 11321), (11274, 11322), (11275, 11323), (11276, 11324), (11277, 11325), (11278, 11326), (11279, 11327), (11280, 11328), (11281, 11329), (11282, 11330), (11283, 11331), (11284, 11332), (11285, 11333), (11286, 11334), (11287, 11335), (11288, 11336), (11289, 11337), (11290, 11338), (11291, 11339), (11292, 11340), (11293, 11341), (11294, 11342), (11295, 11343), (11296, 11344), (11297, 11345), (11298, 11346), (11299, 11347), (11300, 11348), (11301, 11349), (11302, 11350), (11303, 11351), (11304, 11352), (11305, 11353), (11306, 11354), (11307, 11355), (11308, 11356), (11309, 11357), (11310, 11358), (11311, 11359)]),
  (177, [(11360, 11361), (11362, 619), (11363, 7549), (11364, 637), (11367, 11368), (11369, 11370), (11371, 11372), (11373, 593), (11374, 625), (11375, 592), (11376, 594), (11378, 11379), (11381, 11382), (11390, 575), (11391, 576)]),
  (178, [(11392, 11393), (11394, 11395), (11396, 11397), (11398, 11399), (11400, 11401), (11402, 11403), (11404, 11405), (11406, 11407), (11408, 11409), (11410, 11411), (11412, 11413), (11414, 11415), (11416, 11417), (11418, 11419), (11420, 11421), (11422, 11423), (11424, 11425), (11426, 11427), (11428, 11429), (11430, 11431), (11432, 11433), (11434, 11435), (11436, 11437), (11438, 11439), (11440, 11441), (11442, 11443), (11444, 11445), (11446, 11447), (11448, 11449), (11450, 11451), (11452, 11453), (11454, 11455)]),
  (179, [(11456, 11457), (11458, 11459), (11460, 11461), (11462, 11463), (11464, 11465), (11466, 11467), (11468, 11469), (11470, 11471), (11472, 11473), (11474, 11475), (11476, 11477), (11478, 11479), (11480, 11481), (11482, 11483), (11484, 11485), (11486, 11487), (11488, 11489), (11490, 11491), (11499, 11500), (11501, 11502), (11506, 11507)]),
  (665, [(42560, 42561), (42562, 42563), (42564, 42565), (42566, 42567), (42568, 42569), (42570, 42571), (42572, 42573), (42574, 42575), (42576, 42577), (42578, 42579), (42580, 42581), (42582, 42583), (42584, 42585), (42586, 42587), (42588, 42589), (42590, 42591), (42592, 42593), (42594, 42595), (42596, 42597), (42598, 42599), (42600, 42601), (42602, 42603), (42604, 42605)]),
  (666, [(42624, 42625), (42626, 42627), (42628, 42629), (42630, 42631), (42632, 42633), (42634, 42635), (42636, 42637), (42638, 42639), (42640, 42641), (42642, 42643), (42644, 42645), (42646, 42647), (42648, 42649), (42650, 42651)]),
  (668, [(42786, 42787), (42788, 42789), (42790, 42791), (42792, 42793), (42794, 42795), (42796, 42797), (42798, 42799), (42802, 42803), (42804, 42805), (42806, 42807), (42808, 42809), (42810, 42811), (42812, 42813), (42814, 42815)]),
  (669, [(42816, 42817), (42818, 42819), (42820, 42821), (42822, 42823), (42824, 42825), (42826, 42827), (42828, 42829), (42830, 42831), (42832, 42833), (42834, 42835), (42836, 42837), (42838, 42839), (42840, 42841), (42842, 42843), (42844, 42845), (42846, 42847), (42848, 42849), (42850, 42851), (42852, 42853), (42854, 42855), (42856, 42857), (42858, 42859), (42860, 42861), (42862, 42863), (42873, 42874), (42875, 42876), (42877, 7545), (42878, 42879)]),
  (670, [(42880, 42881), (42882, 42883), (42884, 42885), (42886, 42887), (42891, 42892), (42893, 613), (42896, 42897), (42898, 42899), (42902, 42903), (42904, 42905), (42906, 42907), (42908, 42909), (42910, 42911), (42912, 42913), (42914, 42915), (42916, 42917), (42918, 42919), (42920, 42921), (42922, 614), (42923, 604), (42924, 609), (42925, 620), (42926, 618), (42928, 670), (42929, 647), (42930, 669), (42931, 43859), (42932, 42933), (42934, 42935), (42936, 42937), (42938, 42939), (42940, 42941), (42942, 42943)]),
  (671, [(42944, 42945), (42946, 42947), (42948, 42900), (42949, 642), (42950, 7566), (42951, 42952), (42953, 42954), (42960, 42961), (42966, 42967), (42968, 42969), (42997, 42998)]),
  (1020, [(65313, 65345), (65314, 65346), (65315, 65347), (65316, 65348), (65317, 65349), (65318, 65350), (65319, 65351), (65320, 65352), (65321, 65353), (65322, 65354), (65323, 65355), (65324, 65356), (65325, 65357), (65326, 65358), (65327, 65359), (65328, 65360), (65329, 65361), (65330, 65362), (65331, 65363), (65332, 65364), (65333, 65365), (65334, 65366), (65335, 65367), (65336, 65368), (65337, 65369), (65338, 65370)]),
  (1040, [(66560, 66600), (66561, 66601), (66562, 66602), (66563, 66603), (66564, 66604), (66565, 66605), (66566, 66606), (66567, 66607), (66568, 66608), (66569, 66609), (66570, 66610), (66571, 66611), (66572, 66612), (66573, 66613), (66574, 66614), (66575, 66615), (66576, 66616), (66577, 66617), (66578, 66618), (66579, 66619), (66580, 66620), (66581, 66621), (66582, 66622), (66583, 66623), (66584, 66624), (66585, 66625), (66586, 66626), (66587, 66627), (66588, 66628), (66589, 66629), (66590, 66630), (66591, 66631), (66592, 66632), (66593, 66633), (66594, 66634), (66595, 66635), (66596, 66636), (66597, 66637), (66598, 66638), (66599, 66639)]),
  (1042, [(66736, 66776), (66737, 66777), (66738, 66778), (66739, 66779), (66740, 66780), (66741, 66781), (66742, 66782), (66743, 66783), (66744, 66784), (66745, 66785), (66746, 66786), (66747, 66787), (66748, 66788), (66749, 66789), (66750, 66790), (66751, 66791)]),
  (1043, [(66752, 66792), (66753, 66793), (66754, 66794), (66755, 66795), (66756, 66796), (66757, 66797), (66758, 66798), (66759, 66799), (66760, 66800), (66761, 66801), (66762, 66802), (66763, 66803), (66764, 66804), (66765, 66805), (66766, 66806), (66767, 66807), (66768, 66808), (66769, 66809), (66770, 66810), (66771, 66811)]),
  (1045, [(66928, 66967), (66929, 66968), (66930, 66969), (66931, 66970), (66932, 66971), (66933, 66972), (66934, 66973), (66935, 66974), (66936, 66975), (66937, 66976), (66938, 66977), (66940, 66979), (66941, 66980), (66942, 66981), (66943, 66982)]),
  (1046, [(66944, 66983), (66945, 66984), (66946, 66985), (66947, 66986), (66948, 66987), (66949, 66988), (66950, 66989), (66951, 66990), (66952, 66991), (66953, 66992), (66954, 66993), (66956, 66995), (66957, 66996), (66958, 66997), (66959, 66998), (66960, 66999), (66961, 67000), (66962, 67001), (66964, 67003), (66965, 67004)]),
  (1074, [(68736, 68800), (68737, 68801), (68738, 68802), (68739, 68803), (68740, 68804), (68741, 68805), (68742, 68806), (68743, 68807), (68744, 68808), (68745, 68809), (68746, 68810), (68747, 68811), (68748, 68812), (68749, 68813), (68750, 68814), (68751, 68815), (68752, 68816), (68753, 68817), (68754, 68818), (68755, 68819), (68756, 68820), (68757, 68821), (68758, 68822), (68759, 68823), (68760, 68824), (68761, 68825), (68762, 68826), (68763, 68827), (68764, 68828), (68765, 68829), (68766, 68830), (68767, 68831), (68768, 68832), (68769, 68833), (68770, 68834), (68771, 68835), (68772, 68836), (68773, 68837), (68774, 68838), (68775, 68839), (68776, 68840), (68777, 68841), (68778, 68842), (68779, 68843), (68780, 68844), (68781, 68845), (68782, 68846), (68783, 68847), (68784, 68848), (68785, 68849), (68786, 68850)]),
  (1122, [(71840, 71872), (71841, 71873), (71842, 71874), (71843, 71875), (71844, 71876), (71845, 71877), (71846, 71878), (71847, 71879), (71848, 71880), (71849, 71881), (71850, 71882), (71851, 71883), (71852, 71884), (71853, 71885), (71854, 71886), (71855, 71887), (71856, 71888), (71857, 71889), (71858, 71890), (71859, 71891), (71860, 71892), (71861, 71893), (71862, 71894), (71863, 71895), (71864, 71896), (71865, 71897), (71866, 71898), (71867, 71899), (71868, 71900), (71869, 71901), (71870, 71902), (71871, 71903)]),
  (1465, [(93760, 93792), (93761, 93793), (93762, 93794), (93763, 93795), (93764, 93796), (93765, 93797), (93766, 93798), (93767, 93799), (93768, 93800), (93769, 93801), (93770, 93802), (93771, 93803), (93772, 93804), (93773, 93805), (93774, 93806), (93775, 93807), (93776, 93808), (93777, 93809), (93778, 93810), (93779, 93811), (93780, 93812), (93781, 93813), (93782, 93814), (93783, 93815), (93784, 93816), (93785, 93817), (93786, 93818), (93787, 93819), (93788, 93820), (93789, 93821), (93790, 93822), (93791, 93823)]),
  (1956, [(125184, 125218), (125185, 125219), (125186, 125220), (125187, 125221), (125188, 125222), (125189, 125223), (125190, 125224), (125191, 125225), (125192, 125226), (125193, 125227), (125194, 125228), (125195, 125229), (125196, 125230), (125197, 125231), (125198, 125232), (125199, 125233), (125200, 125234), (125201, 125235), (125202, 125236), (125203, 125237), (125204, 125238), (125205, 125239), (125206, 125240), (125207, 125241), (125208, 125242), (125209, 125243), (125210, 125244), (125211, 125245), (125212, 125246), (125213, 125247), (125214, 125248), (125215, 125249), (125216, 125250), (125217, 125251)])]

/-- Linear scan of one ascending bucket, stopping at the first larger
key. -/
def innerLookup (c : Nat) : List (Nat × Nat) → Option Nat
  | [] => none
  | (k, v) :: t => if c < k then none else if c = k then some v else innerLookup c t

/-- Linear scan of the ascending bucket list. -/
def bucketFind (b : Nat) : List (Nat × List (Nat × Nat)) → Option (List (Nat × Nat))
  | [] => none
  | (i, e) :: t => if b < i then none else if b = i then some e else bucketFind b t

/-- The Unicode simple lowercase mapping as a total function: code
points without a mapping are fixed. -/
def lowerSimple (c : Nat) : Nat :=
  match bucketFind (c / 64) lowerBuckets with
  | none => c
  | some e =>
    match innerLookup c e with
    | none => c
    | some v => v

set_option maxHeartbeats 1000000 in
/-- The code points with the Unicode `Cased` property (Unicode
14.0.0), as ascending closed ranges. -/
def casedRanges : List (Nat × Nat) := [
  (65, 90), (97, 122), (170, 170), (181, 181), (186, 186), (192, 214), (216, 246), (248, 442),
  (444, 447), (452, 659), (661, 687), (880, 883), (886, 887), (891, 893), (895, 895), (902, 902),
  (904, 906), (908, 908), (910, 929), (931, 1013), (1015, 1153), (1162, 1327), (1329, 1366), (1376, 1416),
  (4256, 4293), (4295, 4295), (4301, 4301), (4304, 4346), (4349, 4351), (5024, 5109), (5112, 5117), (7296, 7304),
  (7312, 7354), (7357, 7359), (7424, 7467), (7531, 7543), (7545, 7578), (7680, 7957), (7960, 7965), (7968, 8005),
  (8008, 8013), (8016, 8023), (8025, 8025), (8027, 8027), (8029, 8029), (8031, 8061), (8064, 8116), (8118, 8124),
  (8126, 8126), (8130, 8132), (8134, 8140), (8144, 8147), (8150, 8155), (8160, 8172), (8178, 8180), (8182, 8188),
  (8450, 8450), (8455, 8455), (8458, 8467), (8469, 8469), (8473, 8477), (8484, 8484), (8486, 8486), (8488, 8488),
  (8490, 8493), (8495, 8500), (8505, 8505), (8508, 8511), (8517, 8521), (8526, 8526), (8544, 8575), (8579, 8580),
  (9398, 9449), (11264, 11387), (11390, 11492), (11499, 11502), (11506, 11507), (11520, 11557), (11559, 11559), (11565, 11565),
  (42560, 42605), (42624, 42651), (42786, 42863), (42865, 42887), (42891, 42894), (42896, 42954), (42960, 42961), (42963, 42963),
  (42965, 42969), (42997, 42998), (43002, 43002), (43824, 43866), (43872, 43880), (43888, 43967), (64256, 64262), (64275, 64279),
  (65313, 65338), (65345, 65370), (66560, 66639), (66736, 66771), (66776, 66811), (66928, 66938), (66940, 66954), (66956, 66962),
  (66964, 66965), (66967, 66977), (66979, 66993), (66995, 67001), (67003, 67004), (68736, 68786), (68800, 68850), (71840, 71903),
  (93760, 93823), (119808, 119892), (119894, 119964), (119966, 119967), (119970, 119970), (119973, 119974), (119977, 119980), (119982, 119993),
  (119995, 119995), (119997, 120003), (120005, 120069), (120071, 120074), (120077, 120084), (120086, 120092), (120094, 120121), (120123, 120126),
  (120128, 120132), (120134, 120134), (120138, 120144), (120146, 120485), (120488, 120512), (120514, 120538), (120540, 120570), (120572, 120596),
  (120598, 120628), (120630, 120654), (120656, 120686), (120688, 120712), (120714, 120744), (120746, 120770), (120772, 120779), (122624, 122633),
  (122635, 122654), (125184, 125251), (127280, 127305), (127312, 127337), (127344, 127369)]

set_option maxHeartbeats 1000000 in
/-- The code points with the Unicode `Case_Ignorable` property
(Unicode 14.0.0), as ascending closed ranges. -/
def caseIgnorableRanges : List (Nat × Nat) := [
  (39, 39), (46, 46), (58, 58), (94, 94), (96, 96), (168, 168), (173, 173), (175, 175),
  (180, 180), (183, 184), (688, 879), (884, 885), (890, 890), (900, 901), (903, 903), (1155, 1161),
  (1369, 1369), (1375, 1375), (1425, 1469), (1471, 1471), (1473, 1474), (1476, 1477), (1479, 1479), (1524, 1524),
  (1536, 1541), (1552, 1562), (1564, 1564), (1600, 1600), (1611, 1631), (1648, 1648), (1750, 1757), (1759, 1768),
  (1770, 1773), (1807, 1807), (1809, 1809), (1840, 1866), (1958, 1968), (2027, 2037), (2042, 2042), (2045, 2045),
  (2070, 2093), (2137, 2139), (2184, 2184), (2192, 2193), (2200, 2207), (2249, 2306), (2362, 2362), (2364, 2364),
  (2369, 2376), (2381, 2381), (2385, 2391), (2402, 2403), (2417, 2417), (2433, 2433), (2492, 2492), (2497, 2500),
  (2509, 2509), (2530, 2531), (2558, 2558), (2561, 2562), (2620, 2620), (2625, 2626), (2631, 2632), (2635, 2637),
  (2641, 2641), (2672, 2673), (2677, 2677), (2689, 2690), (2748, 2748), (2753, 2757), (2759, 2760), (2765, 2765),
  (2786, 2787), (2810, 2815), (2817, 2817), (2876, 2876), (2879, 2879), (2881, 2884), (2893, 2893), (2901, 2902),
  (2914, 2915), (2946, 2946), (3008, 3008), (3021, 3021), (3072, 3072), (3076, 3076), (3132, 3132), (3134, 3136),
  (3142, 3144), (3146, 3149), (3157, 3158), (3170, 3171), (3201, 3201), (3260, 3260), (3263, 3263), (3270, 3270),
  (3276, 3277), (3298, 3299), (3328, 3329), (3387, 3388), (3393, 3396), (3405, 3405), (3426, 3427), (3457, 3457),
  (3530, 3530), (3538, 3540), (3542, 3542), (3633, 3633), (3636, 3642), (3654, 3662), (3761, 3761), (3764, 3772),
  (3782, 3782), (3784, 3789), (3864, 3865), (3893, 3893), (3895, 3895), (3897, 3897), (3953, 3966), (3968, 3972),
  (3974, 3975), (3981, 3991), (3993, 4028), (4038, 4038), (4141, 4144), (4146, 4151), (4153, 4154), (4157, 4158),
  (4184, 4185), (4190, 4192), (4209, 4212), (4226, 4226), (4229, 4230), (4237, 4237), (4253, 4253), (4348, 4348),
  (4957, 4959), (5906, 5908), (5938, 5939), (5970, 5971), (6002, 6003), (6068, 6069), (6071, 6077), (6086, 6086),
  (6089, 6099), (6103, 6103), (6109, 6109), (6155, 6159), (6211, 6211), (6277, 6278), (6313, 6313), (6432, 6434),
  (6439, 6440), (6450, 6450), (6457, 6459), (6679, 6680), (6683, 6683), (6742, 6742), (6744, 6750), (6752, 6752),
  (6754, 6754), (6757, 6764), (6771, 6780), (6783, 6783), (6823, 6823), (6832, 6862), (6912, 6915), (6964, 6964),
  (6966, 6970), (6972, 6972), (6978, 6978), (7019, 7027), (7040, 7041), (7074, 7077), (7080, 7081), (7083, 7085),
  (7142, 7142), (7144, 7145), (7149, 7149), (7151, 7153), (7212, 7219), (7222, 7223), (7288, 7293), (7376, 7378),
  (7380, 7392), (7394, 7400), (7405, 7405), (7412, 7412), (7416, 7417), (7468, 7530), (7544, 7544), (7579, 7679),
  (8125, 8125), (8127, 8129), (8141, 8143), (8157, 8159), (8173, 8175), (8189, 8190), (8203, 8207), (8216, 8217),
  (8228, 8228), (8231, 8231), (8234, 8238), (8288, 8292), (8294, 8303), (8305, 8305), (8319, 8319), (8336, 8348),
  (8400, 8432), (11388, 11389), (11503, 11505), (11631, 11631), (11647, 11647), (11744, 11775), (11823, 11823), (12293, 12293),
  (12330, 12333), (12337, 12341), (12347, 12347), (12441, 12446), (12540, 12542), (40981, 40981), (42232, 42237), (42508, 42508),
  (42607, 42610), (42612, 42621), (42623, 42623), (42652, 42655), (42736, 42737), (42752, 42785), (42864, 42864), (42888, 42890),
  (42994, 42996), (43000, 43001), (43010, 43010), (43014, 43014), (43019, 43019), (43045, 43046), (43052, 43052), (43204, 43205),
  (43232, 43249), (43263, 43263), (43302, 43309), (43335, 43345), (43392, 43394), (43443, 43443), (43446, 43449), (43452, 43453),
  (43471, 43471), (43493, 43494), (43561, 43566), (43569, 43570), (43573, 43574), (43587, 43587), (43596, 43596), (43632, 43632),
  (43644, 43644), (43696, 43696), (43698, 43700), (43703, 43704), (43710, 43711), (43713, 43713), (43741, 43741), (43756, 43757),
  (43763, 43764), (43766, 43766), (43867, 43871), (43881, 43883), (44005, 44005), (44008, 44008), (44013, 44013), (64286, 64286),
  (64434, 64450), (65024, 65039), (65043, 65043), (65056, 65071), (65106, 65106), (65109, 65109), (65279, 65279), (65287, 65287),
  (65294, 65294), (65306, 65306), (65342, 65342), (65344, 65344), (65392, 65392), (65438, 65439), (65507, 65507), (65529, 65531),
  (66045, 66045), (66272, 66272), (66422, 66426), (67456, 67461), (67463, 67504), (67506, 67514), (68097, 68099), (68101, 68102),
  (68108, 68111), (68152, 68154), (68159, 68159), (68325, 68326), (68900, 68903), (69291, 69292), (69446, 69456), (69506, 69509),
  (69633, 69633), (69688, 69702), (69744, 69744), (69747, 69748), (69759, 69761), (69811, 69814), (69817, 69818), (69821, 69821),
  (69826, 69826), (69837, 69837), (69888, 69890), (69927, 69931), (69933, 69940), (70003, 70003), (70016, 70017), (70070, 70078),
  (70089, 70092), (70095, 70095), (70191, 70193), (70196, 70196), (70198, 70199), (70206, 70206), (70367, 70367), (70371, 70378),
  (70400, 70401), (70459, 70460), (70464, 70464), (70502, 70508), (70512, 70516), (70712, 70719), (70722, 70724), (70726, 70726),
  (70750, 70750), (70835, 70840), (70842, 70842), (70847, 70848), (70850, 70851), (71090, 71093), (71100, 71101), (71103, 71104),
  (71132, 71133), (71219, 71226), (71229, 71229), (71231, 71232), (71339, 71339), (71341, 71341), (71344, 71349), (71351, 71351),
  (71453, 71455), (71458, 71461), (71463, 71467), (71727, 71735), (71737, 71738), (71995, 71996), (71998, 71998), (72003, 72003),
  (72148, 72151), (72154, 72155), (72160, 72160), (72193, 72202), (72243, 72248), (72251, 72254), (72263, 72263), (72273, 72278),
  (72281, 72283), (72330, 72342), (72344, 72345), (72752, 72758), (72760, 72765), (72767, 72767), (72850, 72871), (72874, 72880),
  (72882, 72883), (72885, 72886), (73009, 73014), (73018, 73018), (73020, 73021), (73023, 73029), (73031, 73031), (73104, 73105),
  (73109, 73109), (73111, 73111), (73459, 73460), (78896, 78904), (92912, 92916), (92976, 92982), (92992, 92995), (94031, 94031),
  (94095, 94111), (94176, 94177), (94179, 94180), (110576, 110579), (110581, 110587), (110589, 110590), (113821, 113822), (113824, 113827),
  (118528, 118573), (118576, 118598), (119143, 119145), (119155, 119170), (119173, 119179), (119210, 119213), (119362, 119364), (121344, 121398),
  (121403, 121452), (121461, 121461), (121476, 121476), (121499, 121503), (121505, 121519), (122880, 122886), (122888, 122904), (122907, 122913),
  (122915, 122916), (122918, 122922), (123184, 123197), (123566, 123566), (123628, 123631), (125136, 125142), (125252, 125259), (127995, 127999),
  (917505, 917505), (917536, 917631), (917760, 917999)]

/-- Membership in an ascending list of closed ranges, stopping early. -/
def inRanges (c : Nat) : List (Nat × Nat) → Bool
  | [] => false
  | (lo, hi) :: t => if c < lo then false else if c ≤ hi then true else inRanges c t

/-- The Unicode `Cased` property. -/
def isCased (c : Nat) : Bool :=
  inRanges c casedRanges

/-- The Unicode `Case_Ignorable` property. -/
def isCaseIgnorable (c : Nat) : Bool :=
  inRanges c caseIgnorableRanges

/-- The backward half of the `Final_Sigma` context of the Unicode
Default Case Conversion: the argument lists the characters before the
sigma, nearest first; skip case-ignorable characters, then require a
cased one. -/
def precededByCased : List Nat → Bool
  | [] => false
  | c :: rest => if isCaseIgnorable c then precededByCased rest else isCased c

/-- The forward half of the `Final_Sigma` context: the characters
after the sigma in order; skip case-ignorable characters, then look
for a cased one. -/
def followedByCased : List Nat → Bool
  | [] => false
  | c :: rest => if isCaseIgnorable c then followedByCased rest else isCased c

/-- One character of `String.prototype.toLowerCase` — the Unicode
Default Case Conversion `toLowercase`: U+03A3 maps to final sigma
U+03C2 exactly in the `Final_Sigma` context and to U+03C3 otherwise;
U+0130 expands to U+0069 U+0307, the single unconditional
multi-character lowercase mapping; every other character follows the
simple mapping. `before` holds the original characters preceding this
one, nearest first, and `after` those following it. -/
def lowerChar (before : List Nat) (c : Nat) (after : List Nat) : List Nat :=
  if c = 931 then
    (if precededByCased before && !followedByCased after then [962] else [963])
  else if c = 304 then [105, 775]
  else [lowerSimple c]

/-- Worker for `toLowerCase`, accumulating the already-processed
characters in reverse for the sigma context. -/
def toLowerCaseGo (before : List Nat) : List Nat → List Nat
  | [] => []
  | c :: rest => lowerChar before c rest ++ toLowerCaseGo (c :: before) rest

/-- ECMAScript `String.prototype.toLowerCase`: the Unicode Default
Case Conversion applied to the whole string. -/
def toLowerCase (s : List Nat) : List Nat :=
  toLowerCaseGo [] s

/-- `normalize` from the single-file variant, lines 366-369:
`str.trim().replace(/[\r\n]+/g, ' ').replace(/\s+/g, ' ').toLowerCase()`,
with the empty string passed through unchanged. -/
def normalize (s : List Nat) : List Nat :=
  if s = [] then []
  else toLowerCase (collapseRuns isSpaceJS (collapseRuns isCRLF (trim s)))

/-- A character of the live Word document: its code point together with
its current highlight colour (`none` models the Word value `"None"`). -/
structure Ch where
  code : Nat
  hl : Option (List Nat)
deriving DecidableEq

/-- The live Word document body, as its character sequence. -/
abbrev WordDoc := List Ch

/-- A contiguous range of the document, as a start offset and a
length, the shape in which the host reports token ranges and search
results. -/
abbrev DocRange := Nat × Nat

/-- The delimiter set the source passes to `getTextRanges`:
`[" ", "\r", "\n", "\t"]`. Note this is deliberately narrower than
`isSpaceJS`. -/
def isDelim (c : Nat) : Bool :=
  c = 32 || c = 13 || c = 10 || c = 9

/-- Worker for `tokenRanges`: scan the document left to right carrying
the absolute offset and the token currently being built. -/
def tokenRangesFrom : WordDoc → Nat → Option DocRange → List DocRange
  | [], _, none => []
  | [], _, some r => [r]
  | c :: rest, i, none =>
    if isDelim c.code then tokenRangesFrom rest (i + 1) none
    else tokenRangesFrom rest (i + 1) (some (i, 1))
  | c :: rest, i, some (s, l) =>
    if isDelim c.code then (s, l) :: tokenRangesFrom rest (i + 1) none
    else tokenRangesFrom rest (i + 1) (some (s, l + 1))

/-- The host call `body.getRange("Whole").getTextRanges([" ", "\r", "\n", "\t"], true)`:
the ordered ranges of the maximal delimiter-free runs of the document
(`trimSpacing = true` drops the whitespace-only pieces). -/
def tokenRanges (doc : WordDoc) : List DocRange :=
  tokenRangesFrom doc 0 none

/-- The host call `range.insertText(newText, Word.InsertLocation.replace)`
followed by `range.font.highlightColor = "None"`: the range content is
replaced by `newText` and the resulting range carries no highlight. -/
def replaceRange (doc : WordDoc) (r : DocRange) (newText : List Nat) : WordDoc :=
  doc.take r.1 ++ newText.map (fun c => ⟨c, none⟩) ++ doc.drop (r.1 + r.2)

/-- The `results.items.forEach` replacement loop over the ranges the
host search returned. Word ranges are live objects, so the loop
replaces the originally matched spans simultaneously; with the ranges
reported in ascending document order this is a right fold of
`replaceRange`, which never shifts a not-yet-processed range. -/
def replaceRanges (doc : WordDoc) (rs : List DocRange) (newText : List Nat) : WordDoc :=
  rs.foldr (fun r d => replaceRange d r newText) doc

/-- The host call `range.font.highlightColor = color` on one range. -/
def setHighlightRange (doc : WordDoc) (r : DocRange) (color : List Nat) : WordDoc :=
  doc.take r.1 ++ ((doc.drop r.1).take r.2).map (fun c => ⟨c.code, some color⟩) ++
    doc.drop (r.1 + r.2)

/-- The highlight loop over all host search results. -/
def setHighlightRanges (doc : WordDoc) (rs : List DocRange) (color : List Nat) : WordDoc :=
  rs.foldr (fun r d => setHighlightRange d r color) doc

/-- The option bag passed to `body.search`. -/
structure SearchOptions where
  matchCase : Bool
  matchWholeWord : Bool
  ignoreSpace : Bool
deriving DecidableEq

/-- The host search capability `body.search(text, options)`: it returns
the ranges of all matching occurrences. Its matching engine lives in
the Word host, outside this repository, so it is a parameter of the
operations that consult it. -/
abbrev SearchFn := WordDoc → List Nat → SearchOptions → List DocRange

/-- Result of `replaceInWord`: the final document, the returned success
flag, and whether a `Word.run` document transaction was opened. -/
structure ReplaceOutcome where
  doc : WordDoc
  success : Bool
  txOpened : Bool
deriving DecidableEq

/-- `replaceInWord` from `src/utils/word.ts`, lines 87-138: trim the
anchor, reject it when empty, try the position fast path for
single-token anchors, otherwise search with
`{matchCase: false, matchWholeWord: !hasSpace, ignoreSpace: true}` and
replace every occurrence found; the flag is true only when some range
was mutated. -/
def replaceInWord (search : SearchFn) (oldText newText : List Nat)
    (position : Option Int) (doc : WordDoc) : ReplaceOutcome :=
  let cleanOldText := trim oldText
  if cleanOldText = [] then ⟨doc, false, false⟩
  else
    let hasSpace := cleanOldText.any isSpaceJS
    let fallback : ReplaceOutcome :=
      let results := search doc cleanOldText ⟨false, !hasSpace, true⟩
      if results = [] then ⟨doc, false, true⟩
      else ⟨replaceRanges doc results newText, true, true⟩
    match position with
    | some p =>
      if 0 ≤ p ∧ hasSpace = false then
        let words := tokenRanges doc
        if h : p.toNat < words.length then
          ⟨replaceRange doc (words.get ⟨p.toNat, h⟩) newText, true, true⟩
        else fallback
      else fallback
    | none => fallback

/-- Result of `highlightInWord`: the final document and whether a
`Word.run` document transaction was opened. -/
structure HighlightOutcome where
  doc : WordDoc
  txOpened : Bool
deriving DecidableEq

/-- `highlightInWord` from `src/utils/word.ts`, lines 39-81: the same
gating as `replaceInWord`, but the resolved ranges receive a highlight
colour instead of new content and nothing is returned. -/
def highlightInWord (search : SearchFn) (text color : List Nat)
    (position : Option Int) (doc : WordDoc) : HighlightOutcome :=
  let cleanText := trim text
  if cleanText = [] then ⟨doc, false⟩
  else
    let hasSpace := cleanText.any isSpaceJS
    let fallback : HighlightOutcome :=
      let results := search doc cleanText ⟨false, !hasSpace, true⟩
      ⟨setHighlightRanges doc results color, true⟩
    match position with
    | some p =>
      if 0 ≤ p ∧ hasSpace = false then
        let words := tokenRanges doc
        if h : p.toNat < words.length then
          ⟨setHighlightRange doc (words.get ⟨p.toNat, h⟩) color, true⟩
        else fallback
      else fallback
    | none => fallback

/-- `clearHighlights` from `src/utils/word.ts`, lines 143-148:
`body.font.highlightColor = "None"` over the whole document. -/
def clearHighlights (doc : WordDoc) : WordDoc :=
  doc.map (fun c => ⟨c.code, none⟩)

/-- `Correction` from `src/App.tsx`: a spelling error with replacement
candidates. -/
structure Correction where
  wrong : List Nat
  suggestions : List (List Nat)
  position : Option Int
deriving DecidableEq

/-- `ToneSuggestion` from `src/App.tsx`. -/
structure ToneSuggestion where
  current : List Nat
  suggestion : List Nat
  reason : List Nat
  position : Option Int
deriving DecidableEq

/-- `StyleSuggestion` from `src/App.tsx`. -/
structure StyleSuggestion where
  current : List Nat
  suggestion : List Nat
  type : List Nat
  position : Option Int
deriving DecidableEq

/-- `StyleMixingCorrection` from `src/App.tsx`: one nested correction
of a detected style-mixing group. -/
structure StyleMixingCorrection where
  current : List Nat
  suggestion : List Nat
  type : List Nat
  position : Option Int
deriving DecidableEq

/-- `StyleMixing` from `src/App.tsx`: the singleton mixing group; the
optional fields mirror the TypeScript optional members. -/
structure StyleMixing where
  detected : Bool
  recommendedStyle : Option (List Nat)
  reason : Option (List Nat)
  corrections : Option (List StyleMixingCorrection)
deriving DecidableEq

/-- `PunctuationIssue` from `src/App.tsx`. -/
structure PunctuationIssue where
  issue : List Nat
  currentSentence : List Nat
  correctedSentence : List Nat
  explanation : List Nat
  position : Option Int
deriving DecidableEq

/-- `EuphonyImprovement` from `src/App.tsx`. -/
structure EuphonyImprovement where
  current : List Nat
  suggestions : List (List Nat)
  reason : List Nat
  position : Option Int
deriving DecidableEq

/-- The suggestion store: the six pieces of suggestion state held by
the `App` component (`corrections`, `toneSuggestions`,
`styleSuggestions`, `languageStyleMixing`, `punctuationIssues`,
`euphonyImprovements`). -/
structure SuggestionStore where
  corrections : List Correction
  toneSuggestions : List ToneSuggestion
  styleSuggestions : List StyleSuggestion
  languageStyleMixing : Option StyleMixing
  punctuationIssues : List PunctuationIssue
  euphonyImprovements : List EuphonyImprovement
deriving DecidableEq

/-- The nested corrections a mixing slot currently holds: empty when
the slot is absent or its list is missing. Used to state membership
facts uniformly across the collapse-to-null behaviour. -/
def mixingEntries : Option StyleMixing → List StyleMixingCorrection
  | none => []
  | some g => g.corrections.getD []

/-- The success branch of `handleReplace` (`src/App.tsx`, lines
170-185): compute `target = normalize(oldText.trim())` and filter every
category with `normalize(textToCheck) !== target`; the mixing group
keeps only its non-matching corrections and collapses to `null` when
none remain. -/
def reconcileOnReplace (oldText : List Nat) (st : SuggestionStore) : SuggestionStore :=
  let target := normalize (trim oldText)
  let isNotMatch : List Nat → Bool := fun t => decide (normalize t ≠ target)
  { corrections := st.corrections.filter (fun c => isNotMatch c.wrong)
    toneSuggestions := st.toneSuggestions.filter (fun t => isNotMatch t.current)
    styleSuggestions := st.styleSuggestions.filter (fun s => isNotMatch s.current)
    euphonyImprovements := st.euphonyImprovements.filter (fun e => isNotMatch e.current)
    punctuationIssues := st.punctuationIssues.filter (fun p => isNotMatch p.currentSentence)
    languageStyleMixing :=
      match st.languageStyleMixing with
      | none => none
      | some prev =>
        match prev.corrections with
        | none => some prev
        | some cs =>
          let filtered := cs.filter (fun c => isNotMatch c.current)
          if filtered.length > 0 then some { prev with corrections := some filtered }
          else none }

/-- The message kind `showMessage` is called with. -/
inductive MsgType where
  | success
  | error
deriving DecidableEq

/-- Result of `handleReplace`: the final document, the final store, and
the kind of message shown. -/
structure HandleReplaceOutcome where
  doc : WordDoc
  store : SuggestionStore
  message : MsgType
deriving DecidableEq

/-- `handleReplace` from `src/App.tsx`, lines 167-190: run
`replaceInWord`; on success purge the accepted anchor from every
category and report success, otherwise leave the store alone and report
an error. -/
def handleReplace (search : SearchFn) (oldText newText : List Nat)
    (position : Option Int) (doc : WordDoc) (st : SuggestionStore) :
    HandleReplaceOutcome :=
  let r := replaceInWord search oldText newText position doc
  if r.success then ⟨r.doc, reconcileOnReplace oldText st, .success⟩
  else ⟨r.doc, st, .error⟩

/-- The category tag taken by `dismissSuggestion`. -/
inductive DismissType where
  | spelling
  | tone
  | style
  | mixing
  | punct
  | euphony
deriving DecidableEq

/-- `dismissSuggestion` from `src/App.tsx`, lines 193-224: remove from
the named category every entry whose normalized anchor equals the
normalized dismissed text; the mixing group collapses to `null` when
its filtered correction list is empty. -/
def dismissSuggestion (type : DismissType) (textToDismiss : List Nat)
    (st : SuggestionStore) : SuggestionStore :=
  let target := normalize textToDismiss
  let isNotMatch : List Nat → Bool := fun t => decide (normalize t ≠ target)
  match type with
  | .spelling => { st with corrections := st.corrections.filter (fun c => isNotMatch c.wrong) }
  | .tone =>
    { st with toneSuggestions := st.toneSuggestions.filter (fun t => isNotMatch t.current) }
  | .style =>
    { st with styleSuggestions := st.styleSuggestions.filter (fun s => isNotMatch s.current) }
  | .mixing =>
    { st with languageStyleMixing :=
        match st.languageStyleMixing with
        | none => none
        | some prev =>
          match prev.corrections with
          | none => some prev
          | some cs =>
            let filtered := cs.filter (fun c => isNotMatch c.current)
            if filtered.length > 0 then some { prev with corrections := some filtered }
            else none }
  | .punct =>
    { st with punctuationIssues :=
        st.punctuationIssues.filter (fun p => isNotMatch p.currentSentence) }
  | .euphony =>
    { st with euphonyImprovements :=
        st.euphonyImprovements.filter (fun e => isNotMatch e.current) }

/-- The derived stats displayed after the main check. -/
structure Stats where
  totalWords : Nat
  errorCount : Nat
  accuracy : Int
deriving DecidableEq

/-- Worker for `splitWS`: accumulate the current fragment in reverse. -/
def splitWSAux : List Nat → List Nat → List (List Nat)
  | [], cur => [cur.reverse]
  | c :: rest, cur =>
    if isSpaceJS c then cur.reverse :: splitWSAux rest [] else splitWSAux rest (c :: cur)

/-- ECMAScript `str.split(/\s+/)` up to empty fragments, which the
source removes immediately with `.filter(Boolean)`: cut the string at
every whitespace character. -/
def splitWS (l : List Nat) : List (List Nat) :=
  splitWSAux l []

/-- The word count from `performMainCheck`:
`text.trim().length > 0 ? text.trim().split(/\s+/).filter(Boolean).length : 0`. -/
def countWords (text : List Nat) : Nat :=
  if (trim text).length > 0 then
    ((splitWS (trim text)).filter (fun w => decide (w ≠ []))).length
  else 0

/-- ECMAScript `Math.round`: round half away from minus infinity. -/
def jsRound (q : ℚ) : ℤ :=
  ⌊q + 1 / 2⌋

/-- The stats assignment in `performMainCheck` (`src/App.tsx`, lines
379-386): `accuracy = words > 0 ? Math.round(((words - errors) / words) * 100) : 100`. -/
def performMainCheckStats (text : List Nat) (allSpelling : List Correction) : Stats :=
  let words := countWords text
  let errors := allSpelling.length
  { totalWords := words
    errorCount := errors
    accuracy :=
      if words > 0 then jsRound (((words : ℚ) - (errors : ℚ)) / (words : ℚ) * 100)
      else 100 }

/-- The effective sort key `(position ?? 0)` used by every suggestion
sort in the source. -/
def effPos (p : Option Int) : Int :=
  p.getD 0

/-- Insert an element into a list sorted by `key`, before the first
element with a key not smaller than its own. -/
def insertByKey (key : α → Int) (a : α) : List α → List α
  | [] => [a]
  | b :: l => if key a ≤ key b then a :: b :: l else b :: insertByKey key a l

/-- ECMAScript `Array.prototype.sort` with the comparator
`(a, b) => key a - key b`: the specification requires a stable sort,
so any stable sort by `key` is observationally the same; modelled as a
stable insertion sort. -/
def stableSortBy (key : α → Int) : List α → List α
  | [] => []
  | a :: l => insertByKey key a (stableSortBy key l)

/-- The shape-validated payload of one main-check service response,
after the ingestion boundary has already defaulted invalid positions
to `undefined` (here `none`). -/
structure MainCheckResult where
  spellingErrors : List Correction
  punctuationIssues : List PunctuationIssue
  euphonyImprovements : List EuphonyImprovement
  languageStyleMixing : Option StyleMixing
deriving DecidableEq

/-- The `if (globalMixing?.corrections) { ...sort... }` step of
`performMainCheck`: the nested corrections are sorted independently of
the outer object, and a group without a corrections list is left
alone. -/
def sortMixingCorrections : Option StyleMixing → Option StyleMixing
  | none => none
  | some g =>
    match g.corrections with
    | none => some g
    | some cs =>
      some { g with corrections := some (stableSortBy (fun c => effPos c.position) cs) }

/-- The sorting stage of `performMainCheck` (`src/App.tsx`, lines
366-372): every ingested list is sorted ascending by
`(position ?? 0)`. -/
def performMainCheckSorted (r : MainCheckResult) : MainCheckResult :=
  { spellingErrors := stableSortBy (fun c => effPos c.position) r.spellingErrors
    punctuationIssues := stableSortBy (fun p => effPos p.position) r.punctuationIssues
    euphonyImprovements := stableSortBy (fun e => effPos e.position) r.euphonyImprovements
    languageStyleMixing := sortMixingCorrections r.languageStyleMixing }

/-- The sorting stage of `performToneCheck` (`src/App.tsx`, line 407). -/
def performToneCheckSorted (l : List ToneSuggestion) : List ToneSuggestion :=
  stableSortBy (fun t => effPos t.position) l

/-- The sorting stage of `performStyleCheck` (`src/App.tsx`, line 429). -/
def performStyleCheckSorted (l : List StyleSuggestion) : List StyleSuggestion :=
  stableSortBy (fun s => effPos s.position) l

/-- `ContentAnalysis` from `src/App.tsx`. -/
structure ContentAnalysis where
  contentType : List Nat
  description : Option (List Nat)
  missingElements : Option (List (List Nat))
  suggestions : Option (List (List Nat))
deriving DecidableEq

/-- The modal the component may open during a run. -/
inductive Modal where
  | noModal
  | settings
deriving DecidableEq

/-- The component state touched by `checkSpelling`: the document, the
suggestion store fields, the derived stats, the loading flag, the
active modal, and the messages shown so far. -/
structure AppState where
  doc : WordDoc
  corrections : List Correction
  toneSuggestions : List ToneSuggestion
  styleSuggestions : List StyleSuggestion
  languageStyleMixing : Option StyleMixing
  punctuationIssues : List PunctuationIssue
  euphonyImprovements : List EuphonyImprovement
  contentAnalysis : Option ContentAnalysis
  stats : Stats
  isLoading : Bool
  activeModal : Modal
  messages : List (List Nat × MsgType)
deriving DecidableEq

/-- One run's worth of external service outcomes: each pipeline step
either throws a typed error carrying its user-facing message, or
returns the parsed payload (`none` models `callGeminiJson` returning
`null`). -/
structure ServiceEnv where
  mainRes : Except (List Nat) (Option MainCheckResult)
  toneRes : Except (List Nat) (Option (List ToneSuggestion))
  styleRes : Except (List Nat) (Option (List StyleSuggestion))
  contentRes : Except (List Nat) (Option ContentAnalysis)

/-- The style selection driving the optional style pass. -/
inductive StyleSel where
  | noStyle
  | sadhu
  | cholito
deriving DecidableEq

/-- One entry of the batch-highlight request built by
`batchHighlightAll`. -/
structure HlItem where
  text : List Nat
  color : List Nat
  position : Option Int
deriving DecidableEq

/-- `'অনুগ্রহ করে প্রথমে API Key দিন'`. -/
def msgNeedApiKey : List Nat :=
  [2437, 2472, 2497, 2455, 2509, 2480, 2489, 32, 2453, 2480, 2503, 32, 2474, 2509,
   2480, 2469, 2478, 2503, 32, 65, 80, 73, 32, 75, 101, 121, 32, 2470, 2495, 2472]

/-- `'টেক্সট নির্বাচন করুন বা কার্সার রাখুন'`. -/
def msgNeedText : List Nat :=
  [2463, 2503, 2453, 2509, 2488, 2463, 32, 2472, 2495, 2480, 2509, 2476, 2494, 2458,
   2472, 32, 2453, 2480, 2497, 2472, 32, 2476, 2494, 32, 2453, 2494, 2480, 2509,
   2488, 2494, 2480, 32, 2480, 2494, 2454, 2497, 2472]

/-- The fallback error text of the run-level catch block. -/
def msgGenericFail : List Nat :=
  [2468, 2509, 2480, 2497, 2463, 2495, 32, 2489, 2479, 2492, 2503, 2459, 2503, 2404,
   32, 65, 80, 73, 32, 75, 101, 121, 44, 32, 77, 111, 100, 101, 108, 32, 2476, 2494,
   32, 2472, 2503, 2463, 2451, 2479, 2492, 2494, 2480, 2509, 2453, 32, 2458, 2503,
   2453, 32, 2453, 2480, 2497, 2472, 2404]

/-- `'#fee2e2'`, the spelling highlight colour. -/
def colorRed : List Nat := [35, 102, 101, 101, 50, 101, 50]

/-- `'#fef3c7'`, the tone highlight colour. -/
def colorYellow : List Nat := [35, 102, 101, 102, 51, 99, 55]

/-- `'#ccfbf1'`, the style highlight colour. -/
def colorTeal : List Nat := [35, 99, 99, 102, 98, 102, 49]

/-- `batchHighlightAll` from `src/App.tsx`, lines 227-252: build one
item per spelling, tone, and style entry and hand the nonempty batch to
`highlightMultipleInWord`, whose definition lives in the host-facing
utility layer and is passed in as the capability `highlightMultiple`. -/
def batchHighlightAll (highlightMultiple : List HlItem → WordDoc → WordDoc)
    (spellingErrors : List Correction) (toneItems : List ToneSuggestion)
    (styleItems : List StyleSuggestion) (doc : WordDoc) : WordDoc :=
  let items : List HlItem :=
    spellingErrors.map (fun err => ⟨err.wrong, colorRed, err.position⟩) ++
    toneItems.map (fun t => ⟨t.current, colorYellow, t.position⟩) ++
    styleItems.map (fun s => ⟨s.current, colorTeal, s.position⟩)
  if items.length > 0 then highlightMultiple items doc else doc

/-- The state updates of a successful `performMainCheck` (`src/App.tsx`,
lines 374-386): store the sorted lists and the derived stats. -/
def applyMainCheck (text : List Nat) (raw : MainCheckResult) (st : AppState) : AppState :=
  let sorted := performMainCheckSorted raw
  { st with
    corrections := sorted.spellingErrors
    punctuationIssues := sorted.punctuationIssues
    euphonyImprovements := sorted.euphonyImprovements
    languageStyleMixing := sorted.languageStyleMixing
    stats := performMainCheckStats text sorted.spellingErrors }

/-- The run-level catch block of `checkSpelling` followed by its
`finally`: surface `error?.message || fallback` once and drop back to
idle. -/
def runFailed (e : List Nat) (st : AppState) : AppState :=
  { st with
    messages := st.messages ++ [((if e = [] then msgGenericFail else e), .error)]
    isLoading := false }

/-- Steps 4 and 5 of `checkSpelling`: the content-analysis pass and the
single batch highlight, then the `finally` block. -/
def runContentStep (highlightMultiple : List HlItem → WordDoc → WordDoc)
    (env : ServiceEnv) (allSpelling : List Correction)
    (allTone : List ToneSuggestion) (allStyle : List StyleSuggestion)
    (st : AppState) : AppState :=
  match env.contentRes with
  | .error e => runFailed e st
  | .ok contentOpt =>
    let st :=
      match contentOpt with
      | none => st
      | some ca => { st with contentAnalysis := some ca }
    let st :=
      { st with doc := batchHighlightAll highlightMultiple allSpelling allTone allStyle st.doc }
    { st with isLoading := false }

/-- Step 3 of `checkSpelling`: the optional style pass. -/
def runStyleStep (highlightMultiple : List HlItem → WordDoc → WordDoc)
    (env : ServiceEnv) (selectedStyle : StyleSel) (allSpelling : List Correction)
    (allTone : List ToneSuggestion) (st : AppState) : AppState :=
  if selectedStyle = .noStyle then
    runContentStep highlightMultiple env allSpelling allTone [] st
  else
    match env.styleRes with
    | .error e => runFailed e st
    | .ok styleOpt =>
      match styleOpt with
      | none => runContentStep highlightMultiple env allSpelling allTone [] st
      | some l =>
        let sorted := performStyleCheckSorted l
        runContentStep highlightMultiple env allSpelling allTone sorted
          { st with styleSuggestions := sorted }

/-- Step 2 of `checkSpelling`: the optional tone pass. -/
def runToneStep (highlightMultiple : List HlItem → WordDoc → WordDoc)
    (env : ServiceEnv) (selectedTone : List Nat) (selectedStyle : StyleSel)
    (allSpelling : List Correction) (st : AppState) : AppState :=
  if selectedTone = [] then
    runStyleStep highlightMultiple env selectedStyle allSpelling [] st
  else
    match env.toneRes with
    | .error e => runFailed e st
    | .ok toneOpt =>
      match toneOpt with
      | none => runStyleStep highlightMultiple env selectedStyle allSpelling [] st
      | some l =>
        let sorted := performToneCheckSorted l
        runStyleStep highlightMultiple env selectedStyle allSpelling sorted
          { st with toneSuggestions := sorted }

/-- `checkSpelling` from `src/App.tsx`, lines 255-334: guard on the
API key and the document text, reset the store, stats, and highlights,
then run the sequential pipeline under a single try/catch whose catch
surfaces one error message and whose `finally` clears the loading
flag. `text` is the value `getTextFromWord` produced, and
`highlightMultiple` is the host batch-highlight capability. -/
def checkSpelling (highlightMultiple : List HlItem → WordDoc → WordDoc)
    (apiKey : List Nat) (selectedTone : List Nat) (selectedStyle : StyleSel)
    (env : ServiceEnv) (text : List Nat) (st : AppState) : AppState :=
  if apiKey = [] then
    { st with
      messages := st.messages ++ [(msgNeedApiKey, .error)]
      activeModal := .settings }
  else if trim text = [] then
    { st with messages := st.messages ++ [(msgNeedText, .error)] }
  else
    let st0 : AppState :=
      { st with
        isLoading := true
        corrections := []
        toneSuggestions := []
        styleSuggestions := []
        languageStyleMixing := none
        punctuationIssues := []
        euphonyImprovements := []
        contentAnalysis := none
        stats := ⟨0, 0, 100⟩
        doc := clearHighlights st.doc }
    match env.mainRes with
    | .error e => runFailed e st0
    | .ok mainOpt =>
      let st1 :=
        match mainOpt with
        | none => st0
        | some raw => applyMainCheck text raw st0
      runToneStep highlightMultiple env selectedTone selectedStyle st1.corrections st1

/-- A fifty-word document text: fifty copies of the word `a`. -/
def textFifty : List Nat :=
  (List.replicate 50 [97, 32]).flatten

/-- Five spelling errors for the stats example. -/
def spellingFive : List Correction :=
  List.replicate 5 ⟨[98], [], none⟩

/-- The document `"ab cd"` with no highlights. -/
def docTwoTokens : WordDoc :=
  [⟨97, none⟩, ⟨98, none⟩, ⟨32, none⟩, ⟨99, none⟩, ⟨100, none⟩]

/-- A store holding one correction for the anchor `"a"` and one for
`"c"`, and a detected mixing group with corrections for `"a"` and
`"c"`. -/
def storeTwo : SuggestionStore :=
  { corrections := [⟨[97], [[98]], none⟩, ⟨[99], [], none⟩]
    toneSuggestions := []
    styleSuggestions := []
    languageStyleMixing :=
      some ⟨true, none, none, some [⟨[97], [98], [], none⟩, ⟨[99], [100], [], none⟩]⟩
    punctuationIssues := []
    euphonyImprovements := [] }

/-- A store whose mixing group holds a single correction for `"a"`. -/
def storeLastMixing : SuggestionStore :=
  { corrections := []
    toneSuggestions := []
    styleSuggestions := []
    languageStyleMixing := some ⟨true, none, none, some [⟨[97], [98], [], none⟩]⟩
    punctuationIssues := []
    euphonyImprovements := [] }

/-- C7: for every analysis run, the computed stats satisfy
`accuracy = round((totalWords - errorCount) / totalWords * 100)` when
`totalWords > 0`, and `accuracy = 100` when `totalWords = 0` regardless
of `errorCount`; in particular `totalWords = 50` with `errorCount = 5`
yields accuracy `90`. -/
theorem performMainCheckStats_accuracy (text : List Nat) (sp : List Correction) :
    ((performMainCheckStats text sp).totalWords > 0 →
      (performMainCheckStats text sp).accuracy =
        jsRound ((((performMainCheckStats text sp).totalWords : ℚ) -
          ((performMainCheckStats text sp).errorCount : ℚ)) /
          ((performMainCheckStats text sp).totalWords : ℚ) * 100)) ∧
    ((performMainCheckStats text sp).totalWords = 0 →
      (performMainCheckStats text sp).accuracy = 100) ∧
    ((performMainCheckStats text sp).totalWords = 50 →
      (performMainCheckStats text sp).errorCount = 5 →
      (performMainCheckStats text sp).accuracy = 90) := by
  refine ⟨?_, ?_, ?_⟩
  · intro h
    simp only [performMainCheckStats] at h ⊢
    rw [if_pos h]
  · intro h
    simp only [performMainCheckStats] at h ⊢
    rw [if_neg (by omega)]
  · intro h1 h2
    simp only [performMainCheckStats] at h1 h2 ⊢
    rw [h1, h2, if_pos (by omega)]
    norm_num [jsRound]

set_option maxRecDepth 4000 in
/-- Witness for C7 at a concrete fifty-word text with five errors. -/
theorem performMainCheckStats_accuracy_witness :
    (performMainCheckStats textFifty spellingFive).accuracy = 90 :=
  (performMainCheckStats_accuracy textFifty spellingFive).2.2 (by decide) (by decide)

/-- C10: for every input whose anchor text trims to the empty string,
the replace operation returns false immediately without opening a
document transaction or mutating anything, and the highlight operation
returns without touching the document. -/
theorem emptyAnchor_noop (search : SearchFn) (oldText newText color : List Nat)
    (position : Option Int) (doc : WordDoc) (h : trim oldText = []) :
    replaceInWord search oldText newText position doc = ⟨doc, false, false⟩ ∧
    highlightInWord search oldText color position doc = ⟨doc, false⟩ := by
  constructor
  · simp [replaceInWord, h]
  · simp [highlightInWord, h]

/-- Witness for C10 at a whitespace-only anchor. -/
theorem emptyAnchor_noop_witness :
    replaceInWord (fun _ _ _ => [(0, 1)]) [32, 9, 10] [98] (some 0)
        [⟨97, none⟩] = ⟨[⟨97, none⟩], false, false⟩ ∧
    highlightInWord (fun _ _ _ => [(0, 1)]) [32, 9, 10] [35] (some 0)
        [⟨97, none⟩] = ⟨[⟨97, none⟩], false⟩ :=
  emptyAnchor_noop (fun _ _ _ => [(0, 1)]) [32, 9, 10] [98] [35] (some 0)
    [⟨97, none⟩] (by decide)

/-- C2: when the anchor trims nonempty with no internal whitespace and
`0 ≤ position < N` for a document with `N` token ranges, both
operations act on exactly the token range at that index — with no
hypothesis on the token's live text — and the result is the same for
every host search function, so the fallback search is never
consulted. -/
theorem fastPath_targets_token (oldText newText color : List Nat) (p : Int)
    (doc : WordDoc)
    (hne : trim oldText ≠ [])
    (hnospace : (trim oldText).any isSpaceJS = false)
    (hp : 0 ≤ p)
    (hlt : p.toNat < (tokenRanges doc).length) :
    (∀ search : SearchFn,
      replaceInWord search oldText newText (some p) doc =
        ⟨replaceRange doc ((tokenRanges doc).get ⟨p.toNat, hlt⟩) newText, true, true⟩) ∧
    (∀ search : SearchFn,
      highlightInWord search oldText color (some p) doc =
        ⟨setHighlightRange doc ((tokenRanges doc).get ⟨p.toNat, hlt⟩) color, true⟩) := by
  constructor
  · intro search
    simp only [replaceInWord]
    rw [if_neg hne, if_pos ⟨hp, hnospace⟩, dif_pos hlt]
  · intro search
    simp only [highlightInWord]
    rw [if_neg hne, if_pos ⟨hp, hnospace⟩, dif_pos hlt]

/-- Witness for C2: index 1 of `"ab cd"` is replaced even though the
anchor `"z"` differs from the live token text `"cd"`, under a search
function that would have reported a different range. -/
theorem fastPath_targets_token_witness :
    replaceInWord (fun _ _ _ => [(0, 2)]) [122] [119] (some 1) docTwoTokens =
      ⟨replaceRange docTwoTokens ((tokenRanges docTwoTokens).get ⟨1, by decide⟩)
        [119], true, true⟩ :=
  (fastPath_targets_token [122] [119] [35] 1 docTwoTokens (by decide) (by decide)
    (by decide) (by decide)).1 (fun _ _ _ => [(0, 2)])

/-- C3: when the fast path is inapplicable — the anchor has internal
whitespace, or the position is absent, negative, or out of bounds —
both operations consult the host search with case-insensitive,
whitespace-insensitive options and whole-word matching exactly when
the anchor has no internal whitespace, and they act on every range the
search returned. -/
theorem fallback_searches_all (search : SearchFn) (oldText newText color : List Nat)
    (position : Option Int) (doc : WordDoc)
    (hne : trim oldText ≠ [])
    (hfb : position = none ∨
      (∃ p : Int, position = some p ∧
        (p < 0 ∨ (tokenRanges doc).length ≤ p.toNat)) ∨
      (trim oldText).any isSpaceJS = true) :
    replaceInWord search oldText newText position doc =
      (if search doc (trim oldText) ⟨false, !(trim oldText).any isSpaceJS, true⟩ = []
       then ⟨doc, false, true⟩
       else
         ⟨replaceRanges doc
           (search doc (trim oldText) ⟨false, !(trim oldText).any isSpaceJS, true⟩)
           newText, true, true⟩) ∧
    highlightInWord search oldText color position doc =
      ⟨setHighlightRanges doc
        (search doc (trim oldText) ⟨false, !(trim oldText).any isSpaceJS, true⟩)
        color, true⟩ := by
  rcases hfb with hnone | ⟨p, hp, hout⟩ | hsp
  · subst hnone
    constructor
    · simp only [replaceInWord]
      rw [if_neg hne]
    · simp only [highlightInWord]
      rw [if_neg hne]
  · subst hp
    by_cases hcond : 0 ≤ p ∧ (trim oldText).any isSpaceJS = false
    · have hlt : ¬ p.toNat < (tokenRanges doc).length := by
        rcases hout with hneg | hge
        · exact absurd hcond.1 (by omega)
        · omega
      constructor
      · simp only [replaceInWord]
        rw [if_neg hne, if_pos hcond, dif_neg hlt]
      · simp only [highlightInWord]
        rw [if_neg hne, if_pos hcond, dif_neg hlt]
    · constructor
      · simp only [replaceInWord]
        rw [if_neg hne, if_neg hcond]
      · simp only [highlightInWord]
        rw [if_neg hne, if_neg hcond]
  · have hcond : ∀ p : Int, ¬ (0 ≤ p ∧ (trim oldText).any isSpaceJS = false) := by
      intro p h
      rw [hsp] at h
      exact absurd h.2 (by simp)
    rcases position with _ | p
    · constructor
      · simp only [replaceInWord]
        rw [if_neg hne]
      · simp only [highlightInWord]
        rw [if_neg hne]
    · constructor
      · simp only [replaceInWord]
        rw [if_neg hne, if_neg (hcond p)]
      · simp only [highlightInWord]
        rw [if_neg hne, if_neg (hcond p)]

/-- Witness for C3: the multi-word anchor `"b c"` inside `"abc"` takes
the fallback even though position 0 is in bounds, and both reported
occurrences are acted on. -/
theorem fallback_searches_all_witness :
    replaceInWord (fun _ _ _ => [(0, 1), (2, 1)]) [98, 32, 99] [119] (some 0)
        [⟨97, none⟩, ⟨98, none⟩, ⟨99, none⟩] =
      (if (fun (_ : WordDoc) (_ : List Nat) (_ : SearchOptions) => [((0 : Nat), (1 : Nat)), (2, 1)])
            [⟨97, none⟩, ⟨98, none⟩, ⟨99, none⟩] (trim [98, 32, 99])
            ⟨false, !(trim [98, 32, 99]).any isSpaceJS, true⟩ = []
       then ⟨[⟨97, none⟩, ⟨98, none⟩, ⟨99, none⟩], false, true⟩
       else
         ⟨replaceRanges [⟨97, none⟩, ⟨98, none⟩, ⟨99, none⟩]
           ((fun (_ : WordDoc) (_ : List Nat) (_ : SearchOptions) => [((0 : Nat), (1 : Nat)), (2, 1)])
             [⟨97, none⟩, ⟨98, none⟩, ⟨99, none⟩] (trim [98, 32, 99])
             ⟨false, !(trim [98, 32, 99]).any isSpaceJS, true⟩)
           [119], true, true⟩) ∧
    highlightInWord (fun _ _ _ => [(0, 1), (2, 1)]) [98, 32, 99] [35] (some 0)
        [⟨97, none⟩, ⟨98, none⟩, ⟨99, none⟩] =
      ⟨setHighlightRanges [⟨97, none⟩, ⟨98, none⟩, ⟨99, none⟩]
        ((fun (_ : WordDoc) (_ : List Nat) (_ : SearchOptions) => [((0 : Nat), (1 : Nat)), (2, 1)])
          [⟨97, none⟩, ⟨98, none⟩, ⟨99, none⟩] (trim [98, 32, 99])
          ⟨false, !(trim [98, 32, 99]).any isSpaceJS, true⟩)
        [35], true⟩ :=
  fallback_searches_all (fun _ _ _ => [(0, 1), (2, 1)]) [98, 32, 99] [119] [35]
    (some 0) [⟨97, none⟩, ⟨98, none⟩, ⟨99, none⟩] (by decide)
    (Or.inr (Or.inr (by decide)))

/-- C4: the replace operation returns true exactly when the anchor
trims nonempty and either the in-bounds position fast path fired or
the fallback search found at least one occurrence; whenever it returns
false the document is unchanged. -/
theorem replaceInWord_success_iff (search : SearchFn) (oldText newText : List Nat)
    (position : Option Int) (doc : WordDoc) :
    ((replaceInWord search oldText newText position doc).success = true ↔
      (trim oldText ≠ [] ∧
        ((∃ p : Int, position = some p ∧ 0 ≤ p ∧
            (trim oldText).any isSpaceJS = false ∧
            p.toNat < (tokenRanges doc).length) ∨
          search doc (trim oldText)
            ⟨false, !(trim oldText).any isSpaceJS, true⟩ ≠ []))) ∧
    ((replaceInWord search oldText newText position doc).success = false →
      (replaceInWord search oldText newText position doc).doc = doc) := by
  by_cases h0 : trim oldText = []
  · constructor
    · simp [replaceInWord, h0]
    · simp [replaceInWord, h0]
  · rcases position with _ | p
    · by_cases hs : search doc (trim oldText)
          ⟨false, !(trim oldText).any isSpaceJS, true⟩ = []
      · simp only [replaceInWord]
        rw [if_neg h0, if_pos hs]
        constructor
        · refine iff_of_false (by simp) ?_
          rintro ⟨-, ⟨q, hq, -⟩ | hq⟩
          · exact Option.noConfusion hq
          · exact hq hs
        · intro _
          rfl
      · simp only [replaceInWord]
        rw [if_neg h0, if_neg hs]
        constructor
        · exact iff_of_true rfl ⟨h0, Or.inr hs⟩
        · intro h
          exact absurd h (by simp)
    · by_cases hcond : 0 ≤ p ∧ (trim oldText).any isSpaceJS = false
      · by_cases hlt : p.toNat < (tokenRanges doc).length
        · simp only [replaceInWord]
          rw [if_neg h0, if_pos hcond, dif_pos hlt]
          constructor
          · exact iff_of_true rfl ⟨h0, Or.inl ⟨p, rfl, hcond.1, hcond.2, hlt⟩⟩
          · intro h
            exact absurd h (by simp)
        · by_cases hs : search doc (trim oldText)
              ⟨false, !(trim oldText).any isSpaceJS, true⟩ = []
          · simp only [replaceInWord]
            rw [if_neg h0, if_pos hcond, dif_neg hlt, if_pos hs]
            constructor
            · refine iff_of_false (by simp) ?_
              rintro ⟨-, ⟨q, hq, -, -, hqlt⟩ | hq⟩
              · rw [Option.some_inj] at hq
                exact hlt (hq ▸ hqlt)
              · exact hq hs
            · intro _
              rfl
          · simp only [replaceInWord]
            rw [if_neg h0, if_pos hcond, dif_neg hlt, if_neg hs]
            constructor
            · exact iff_of_true rfl ⟨h0, Or.inr hs⟩
            · intro h
              exact absurd h (by simp)
      · by_cases hs : search doc (trim oldText)
            ⟨false, !(trim oldText).any isSpaceJS, true⟩ = []
        · simp only [replaceInWord]
          rw [if_neg h0, if_neg hcond, if_pos hs]
          constructor
          · refine iff_of_false (by simp) ?_
            rintro ⟨-, ⟨q, hq, hq0, hqsp, -⟩ | hq⟩
            · rw [Option.some_inj] at hq
              exact hcond ⟨hq ▸ hq0, hqsp⟩
            · exact hq hs
          · intro _
            rfl
        · simp only [replaceInWord]
          rw [if_neg h0, if_neg hcond, if_neg hs]
          constructor
          · exact iff_of_true rfl ⟨h0, Or.inr hs⟩
          · intro h
            exact absurd h (by simp)

/-- Witness for C4: a search that finds nothing leaves the document of
`"a"` unchanged. -/
theorem replaceInWord_success_iff_witness :
    (replaceInWord (fun _ _ _ => []) [97] [98] none [⟨97, none⟩]).doc =
      [⟨97, none⟩] :=
  (replaceInWord_success_iff (fun _ _ _ => []) [97] [98] none [⟨97, none⟩]).2
    (by decide)

/-- Helper: membership in a list filtered by a normalized-anchor
mismatch test. -/
theorem mem_filter_notMatch {α : Type} [DecidableEq α] (f : α → List Nat)
    (target : List Nat) (l : List α) (x : α) :
    x ∈ l.filter (fun a => decide (normalize (f a) ≠ target)) ↔
      (x ∈ l ∧ normalize (f x) ≠ target) := by
  simp [List.mem_filter]

/-- C1: whenever `replaceInWord` reports success, `handleReplace`
removes, from every suggestion category and from the nested mixing
corrections, every entry whose normalized anchor equals the normalized
accepted text, and leaves membership of every other entry unchanged. -/
theorem handleReplace_reconciles (search : SearchFn) (oldText newText : List Nat)
    (position : Option Int) (doc : WordDoc) (st : SuggestionStore)
    (hsucc : (replaceInWord search oldText newText position doc).success = true) :
    (∀ c ∈ st.corrections, normalize c.wrong = normalize (trim oldText) →
      c ∉ (handleReplace search oldText newText position doc st).store.corrections) ∧
    (∀ c : Correction, normalize c.wrong ≠ normalize (trim oldText) →
      (c ∈ (handleReplace search oldText newText position doc st).store.corrections ↔
        c ∈ st.corrections)) ∧
    (∀ t ∈ st.toneSuggestions, normalize t.current = normalize (trim oldText) →
      t ∉ (handleReplace search oldText newText position doc st).store.toneSuggestions) ∧
    (∀ t : ToneSuggestion, normalize t.current ≠ normalize (trim oldText) →
      (t ∈ (handleReplace search oldText newText position doc st).store.toneSuggestions ↔
        t ∈ st.toneSuggestions)) ∧
    (∀ s ∈ st.styleSuggestions, normalize s.current = normalize (trim oldText) →
      s ∉ (handleReplace search oldText newText position doc st).store.styleSuggestions) ∧
    (∀ s : StyleSuggestion, normalize s.current ≠ normalize (trim oldText) →
      (s ∈ (handleReplace search oldText newText position doc st).store.styleSuggestions ↔
        s ∈ st.styleSuggestions)) ∧
    (∀ e ∈ st.euphonyImprovements, normalize e.current = normalize (trim oldText) →
      e ∉ (handleReplace search oldText newText position doc st).store.euphonyImprovements) ∧
    (∀ e : EuphonyImprovement, normalize e.current ≠ normalize (trim oldText) →
      (e ∈ (handleReplace search oldText newText position doc st).store.euphonyImprovements ↔
        e ∈ st.euphonyImprovements)) ∧
    (∀ q ∈ st.punctuationIssues, normalize q.currentSentence = normalize (trim oldText) →
      q ∉ (handleReplace search oldText newText position doc st).store.punctuationIssues) ∧
    (∀ q : PunctuationIssue, normalize q.currentSentence ≠ normalize (trim oldText) →
      (q ∈ (handleReplace search oldText newText position doc st).store.punctuationIssues ↔
        q ∈ st.punctuationIssues)) ∧
    (∀ m ∈ mixingEntries st.languageStyleMixing,
      normalize m.current = normalize (trim oldText) →
      m ∉ mixingEntries
        (handleReplace search oldText newText position doc st).store.languageStyleMixing) ∧
    (∀ m : StyleMixingCorrection, normalize m.current ≠ normalize (trim oldText) →
      (m ∈ mixingEntries
          (handleReplace search oldText newText position doc st).store.languageStyleMixing ↔
        m ∈ mixingEntries st.languageStyleMixing)) := by
  have hst : (handleReplace search oldText newText position doc st).store =
      reconcileOnReplace oldText st := by
    simp [handleReplace, hsucc]
  rw [hst]
  have hmix : ∀ m : StyleMixingCorrection,
      (m ∈ mixingEntries (reconcileOnReplace oldText st).languageStyleMixing ↔
        (m ∈ mixingEntries st.languageStyleMixing ∧
          normalize m.current ≠ normalize (trim oldText))) := by
    intro m
    simp only [reconcileOnReplace]
    rcases st.languageStyleMixing with - | g
    · simp [mixingEntries]
    · rcases hg : g.corrections with - | cs
      · simp [mixingEntries, hg]

      · simp only [mixingEntries, hg]
        by_cases hlen : (cs.filter
            (fun c => decide (normalize c.current ≠ normalize (trim oldText)))).length > 0
        · rw [if_pos hlen]
          simp [List.mem_filter]
        · rw [if_neg hlen]
          have hnil : cs.filter
              (fun c => decide (normalize c.current ≠ normalize (trim oldText))) = [] := by
            cases h : cs.filter
                (fun c => decide (normalize c.current ≠ normalize (trim oldText))) with
            | nil => rfl
            | cons a l => rw [h] at hlen; simp at hlen
          have := List.filter_eq_nil_iff.mp hnil
          simp only [mixingEntries, Option.getD]
          constructor
          · intro h
            simp at h
          · rintro ⟨hm, hne⟩
            exact absurd (by simpa using hne) (by simpa using this m hm)
  refine ⟨?_, ?_, ?_, ?_, ?_, ?_, ?_, ?_, ?_, ?_, ?_, ?_⟩
  · intro c hc heq
    simp only [reconcileOnReplace]
    rw [mem_filter_notMatch]
    rintro ⟨-, hne⟩
    exact hne heq
  · intro c hne
    simp only [reconcileOnReplace]
    rw [mem_filter_notMatch]
    exact ⟨fun h => h.1, fun h => ⟨h, hne⟩⟩
  · intro t ht heq
    simp only [reconcileOnReplace]
    rw [mem_filter_notMatch]
    rintro ⟨-, hne⟩
    exact hne heq
  · intro t hne
    simp only [reconcileOnReplace]
    rw [mem_filter_notMatch]
    exact ⟨fun h => h.1, fun h => ⟨h, hne⟩⟩
  · intro s hsm heq
    simp only [reconcileOnReplace]
    rw [mem_filter_notMatch]
    rintro ⟨-, hne⟩
    exact hne heq
  · intro s hne
    simp only [reconcileOnReplace]
    rw [mem_filter_notMatch]
    exact ⟨fun h => h.1, fun h => ⟨h, hne⟩⟩
  · intro e he heq
    simp only [reconcileOnReplace]
    rw [mem_filter_notMatch]
    rintro ⟨-, hne⟩
    exact hne heq
  · intro e hne
    simp only [reconcileOnReplace]
    rw [mem_filter_notMatch]
    exact ⟨fun h => h.1, fun h => ⟨h, hne⟩⟩
  · intro q hq heq
    simp only [reconcileOnReplace]
    rw [mem_filter_notMatch]
    rintro ⟨-, hne⟩
    exact hne heq
  · intro q hne
    simp only [reconcileOnReplace]
    rw [mem_filter_notMatch]
    exact ⟨fun h => h.1, fun h => ⟨h, hne⟩⟩
  · intro m hm heq
    rw [hmix]
    rintro ⟨-, hne⟩
    exact hne heq
  · intro m hne
    rw [hmix]
    exact ⟨fun h => h.1, fun h => ⟨h, hne⟩⟩

/-- Witness for C1: after a successful replace of the anchor `"a"`,
the correction anchored at `"a"` is gone from the store. -/
theorem handleReplace_reconciles_witness :
    (⟨[97], [[98]], none⟩ : Correction) ∉
      (handleReplace (fun _ _ _ => [(0, 1)]) [97] [98] none [⟨97, none⟩]
        storeTwo).store.corrections :=
  (handleReplace_reconciles (fun _ _ _ => [(0, 1)]) [97] [98] none [⟨97, none⟩]
    storeTwo (by decide)).1 ⟨[97], [[98]], none⟩ (by decide) (by decide)

/-- C5: for a detected style-mixing group, dismissing (and likewise
reconciling away) a text matching every remaining nested correction
collapses the group to absent, while a dismissal that leaves some
correction unmatched keeps the group present with exactly the
non-matching corrections. -/
theorem dismiss_mixing_collapse (d : List Nat) (st : SuggestionStore)
    (g : StyleMixing) (cs : List StyleMixingCorrection)
    (hst : st.languageStyleMixing = some g) (hcs : g.corrections = some cs) :
    ((∀ c ∈ cs, normalize c.current = normalize d) →
      (dismissSuggestion .mixing d st).languageStyleMixing = none) ∧
    ((∃ c ∈ cs, normalize c.current ≠ normalize d) →
      ((dismissSuggestion .mixing d st).languageStyleMixing.isSome = true ∧
        ∀ c : StyleMixingCorrection,
          (c ∈ mixingEntries (dismissSuggestion .mixing d st).languageStyleMixing ↔
            (c ∈ cs ∧ normalize c.current ≠ normalize d)))) ∧
    ((∀ c ∈ cs, normalize c.current = normalize (trim d)) →
      (reconcileOnReplace d st).languageStyleMixing = none) ∧
    ((∃ c ∈ cs, normalize c.current ≠ normalize (trim d)) →
      ((reconcileOnReplace d st).languageStyleMixing.isSome = true ∧
        ∀ c : StyleMixingCorrection,
          (c ∈ mixingEntries (reconcileOnReplace d st).languageStyleMixing ↔
            (c ∈ cs ∧ normalize c.current ≠ normalize (trim d))))) := by
  have hempty : ∀ target : List Nat, (∀ c ∈ cs, normalize c.current = target) →
      cs.filter (fun c => decide (normalize c.current ≠ target)) = [] := by
    intro target hall
    refine List.filter_eq_nil_iff.mpr ?_
    intro c hc
    simp [hall c hc]
  have hpos : ∀ target : List Nat, (∃ c ∈ cs, normalize c.current ≠ target) →
      (cs.filter (fun c => decide (normalize c.current ≠ target))).length > 0 := by
    rintro target ⟨c, hc, hne⟩
    have : c ∈ cs.filter (fun c => decide (normalize c.current ≠ target)) := by
      simp [List.mem_filter, hc, hne]
    exact List.length_pos.mpr (List.ne_nil_of_mem this)
  obtain ⟨co, tn, sy, mix, pu, eu⟩ := st
  simp only at hst
  subst hst
  obtain ⟨det, recSty, rea, corr⟩ := g
  simp only at hcs
  subst hcs
  refine ⟨?_, ?_, ?_, ?_⟩
  · intro hall
    have h0 := hempty (normalize d) hall
    simp only [dismissSuggestion]
    rw [if_neg (by rw [h0]; simp)]
  · intro hex
    constructor
    · simp only [dismissSuggestion]
      rw [if_pos (hpos (normalize d) hex)]
      rfl
    · intro c
      simp only [dismissSuggestion]
      rw [if_pos (hpos (normalize d) hex)]
      simp [mixingEntries, List.mem_filter]
  · intro hall
    have h0 := hempty (normalize (trim d)) hall
    simp only [reconcileOnReplace]
    rw [if_neg (by rw [h0]; simp)]
  · intro hex
    constructor
    · simp only [reconcileOnReplace]
      rw [if_pos (hpos (normalize (trim d)) hex)]
      rfl
    · intro c
      simp only [reconcileOnReplace]
      rw [if_pos (hpos (normalize (trim d)) hex)]
      simp [mixingEntries, List.mem_filter]

/-- Witness for C5: dismissing the single remaining correction of the
mixing group collapses it, while dismissing one of two corrections
keeps the group. -/
theorem dismiss_mixing_collapse_witness :
    (dismissSuggestion .mixing [97] storeLastMixing).languageStyleMixing = none ∧
    (dismissSuggestion .mixing [97] storeTwo).languageStyleMixing.isSome = true :=
  ⟨(dismiss_mixing_collapse [97] storeLastMixing
      ⟨true, none, none, some [⟨[97], [98], [], none⟩]⟩
      [⟨[97], [98], [], none⟩] (by decide) (by decide)).1 (by decide),
   ((dismiss_mixing_collapse [97] storeTwo
      ⟨true, none, none, some [⟨[97], [98], [], none⟩, ⟨[99], [100], [], none⟩]⟩
      [⟨[97], [98], [], none⟩, ⟨[99], [100], [], none⟩] (by decide) (by decide)).2.1
      ⟨⟨[99], [100], [], none⟩, by decide, by decide⟩).1⟩

/-- Helper: inserting permutes to consing. -/
theorem insertByKey_perm {α : Type} (key : α → Int) (a : α) (l : List α) :
    (insertByKey key a l).Perm (a :: l) := by
  induction l with
  | nil => simp [insertByKey]
  | cons b l ih =>
    simp only [insertByKey]
    by_cases h : key a ≤ key b
    · rw [if_pos h]
    · rw [if_neg h]
      exact (ih.cons b).trans (List.Perm.swap a b l)

/-- Helper: the stable sort is a permutation of its input. -/
theorem stableSortBy_perm {α : Type} (key : α → Int) (l : List α) :
    (stableSortBy key l).Perm l := by
  induction l with
  | nil => simp [stableSortBy]
  | cons a l ih =>
    exact (insertByKey_perm key a (stableSortBy key l)).trans (ih.cons a)

/-- Helper: inserting preserves sortedness by the key. -/
theorem insertByKey_pairwise {α : Type} (key : α → Int) (a : α) (l : List α)
    (h : l.Pairwise (fun x y => key x ≤ key y)) :
    (insertByKey key a l).Pairwise (fun x y => key x ≤ key y) := by
  induction l with
  | nil => simp [insertByKey]
  | cons b l ih =>
    rcases List.pairwise_cons.mp h with ⟨hb, hl⟩
    simp only [insertByKey]
    by_cases hab : key a ≤ key b
    · rw [if_pos hab]
      refine List.pairwise_cons.mpr ⟨?_, h⟩
      intro x hx
      rcases List.mem_cons.mp hx with rfl | hx
      · exact hab
      · exact le_trans hab (hb x hx)
    · rw [if_neg hab]
      refine List.pairwise_cons.mpr ⟨?_, ih hl⟩
      intro x hx
      rcases List.mem_cons.mp ((insertByKey_perm key a l).mem_iff.mp hx) with rfl | hx
      · omega
      · exact hb x hx

/-- Helper: the stable sort is sorted by the key. -/
theorem stableSortBy_pairwise {α : Type} (key : α → Int) (l : List α) :
    (stableSortBy key l).Pairwise (fun x y => key x ≤ key y) := by
  induction l with
  | nil => simp [stableSortBy]
  | cons a l ih => exact insertByKey_pairwise key a _ ih

/-- Helper: inserting an element whose key equals `k` puts it in front
of every key-`k` element already present, because it only ever skips
elements with strictly smaller keys. -/
theorem insertByKey_filter_eq {α : Type} [DecidableEq α] (key : α → Int) (a : α)
    (l : List α) (k : Int) (hk : key a = k) :
    (insertByKey key a l).filter (fun x => decide (key x = k)) =
      a :: l.filter (fun x => decide (key x = k)) := by
  induction l with
  | nil => simp [insertByKey, hk]
  | cons b l ih =>
    simp only [insertByKey]
    by_cases hab : key a ≤ key b
    · rw [if_pos hab]
      simp [List.filter_cons, hk]
    · rw [if_neg hab]
      have hbk : ¬ key b = k := by omega
      simp [List.filter_cons, hbk, ih]

/-- Helper: inserting an element whose key differs from `k` leaves the
key-`k` subsequence unchanged. -/
theorem insertByKey_filter_ne {α : Type} [DecidableEq α] (key : α → Int) (a : α)
    (l : List α) (k : Int) (hk : ¬ key a = k) :
    (insertByKey key a l).filter (fun x => decide (key x = k)) =
      l.filter (fun x => decide (key x = k)) := by
  induction l with
  | nil => simp [insertByKey, hk]
  | cons b l ih =>
    simp only [insertByKey]
    by_cases hab : key a ≤ key b
    · rw [if_pos hab]
      simp [List.filter_cons, hk]
    · rw [if_neg hab]
      simp [List.filter_cons, ih]

/-- Helper: stability of the stable sort — elements sharing a key keep
their arrival order. -/
theorem stableSortBy_filter {α : Type} [DecidableEq α] (key : α → Int) (l : List α)
    (k : Int) :
    (stableSortBy key l).filter (fun x => decide (key x = k)) =
      l.filter (fun x => decide (key x = k)) := by
  induction l with
  | nil => rfl
  | cons a l ih =>
    simp only [stableSortBy]
    by_cases hk : key a = k
    · rw [insertByKey_filter_eq key a _ k hk, ih]
      simp [List.filter_cons, hk]
    · rw [insertByKey_filter_ne key a _ k hk, ih]
      simp [List.filter_cons, hk]

/-- Helper: the mixing slot's entries after the independent nested
sort are the stable sort of its entries before it. -/
theorem mixingEntries_sortMixingCorrections (m : Option StyleMixing) :
    mixingEntries (sortMixingCorrections m) =
      stableSortBy (fun c => effPos c.position) (mixingEntries m) := by
  rcases m with - | g
  · rfl
  · rcases hg : g.corrections with - | cs
    · simp [sortMixingCorrections, mixingEntries, hg, stableSortBy]
    · simp [sortMixingCorrections, mixingEntries, hg]

/-- C8: every ingested category list — and the nested style-mixing
corrections, sorted independently — is ordered ascending by effective
position (missing treated as 0), is a permutation of the arrived
batch, and preserves the arrival order of items sharing an effective
position. -/
theorem ingest_sorted_stable (r : MainCheckResult) (tl : List ToneSuggestion)
    (sl : List StyleSuggestion) :
    ((performMainCheckSorted r).spellingErrors.Pairwise
        (fun a b => effPos a.position ≤ effPos b.position) ∧
      (performMainCheckSorted r).spellingErrors.Perm r.spellingErrors ∧
      ∀ k : Int,
        (performMainCheckSorted r).spellingErrors.filter
            (fun c => decide (effPos c.position = k)) =
          r.spellingErrors.filter (fun c => decide (effPos c.position = k))) ∧
    ((performMainCheckSorted r).punctuationIssues.Pairwise
        (fun a b => effPos a.position ≤ effPos b.position) ∧
      (performMainCheckSorted r).punctuationIssues.Perm r.punctuationIssues ∧
      ∀ k : Int,
        (performMainCheckSorted r).punctuationIssues.filter
            (fun c => decide (effPos c.position = k)) =
          r.punctuationIssues.filter (fun c => decide (effPos c.position = k))) ∧
    ((performMainCheckSorted r).euphonyImprovements.Pairwise
        (fun a b => effPos a.position ≤ effPos b.position) ∧
      (performMainCheckSorted r).euphonyImprovements.Perm r.euphonyImprovements ∧
      ∀ k : Int,
        (performMainCheckSorted r).euphonyImprovements.filter
            (fun c => decide (effPos c.position = k)) =
          r.euphonyImprovements.filter (fun c => decide (effPos c.position = k))) ∧
    ((mixingEntries (performMainCheckSorted r).languageStyleMixing).Pairwise
        (fun a b => effPos a.position ≤ effPos b.position) ∧
      (mixingEntries (performMainCheckSorted r).languageStyleMixing).Perm
        (mixingEntries r.languageStyleMixing) ∧
      ∀ k : Int,
        (mixingEntries (performMainCheckSorted r).languageStyleMixing).filter
            (fun c => decide (effPos c.position = k)) =
          (mixingEntries r.languageStyleMixing).filter
            (fun c => decide (effPos c.position = k))) ∧
    ((performToneCheckSorted tl).Pairwise
        (fun a b => effPos a.position ≤ effPos b.position) ∧
      (performToneCheckSorted tl).Perm tl ∧
      ∀ k : Int,
        (performToneCheckSorted tl).filter (fun c => decide (effPos c.position = k)) =
          tl.filter (fun c => decide (effPos c.position = k))) ∧
    ((performStyleCheckSorted sl).Pairwise
        (fun a b => effPos a.position ≤ effPos b.position) ∧
      (performStyleCheckSorted sl).Perm sl ∧
      ∀ k : Int,
        (performStyleCheckSorted sl).filter (fun c => decide (effPos c.position = k)) =
          sl.filter (fun c => decide (effPos c.position = k))) := by
  refine ⟨⟨?_, ?_, ?_⟩, ⟨?_, ?_, ?_⟩, ⟨?_, ?_, ?_⟩, ⟨?_, ?_, ?_⟩, ⟨?_, ?_, ?_⟩,
    ⟨?_, ?_, ?_⟩⟩
  · exact stableSortBy_pairwise _ r.spellingErrors
  · exact stableSortBy_perm _ r.spellingErrors
  · exact fun k => stableSortBy_filter _ r.spellingErrors k
  · exact stableSortBy_pairwise _ r.punctuationIssues
  · exact stableSortBy_perm _ r.punctuationIssues
  · exact fun k => stableSortBy_filter _ r.punctuationIssues k
  · exact stableSortBy_pairwise _ r.euphonyImprovements
  · exact stableSortBy_perm _ r.euphonyImprovements
  · exact fun k => stableSortBy_filter _ r.euphonyImprovements k
  · rw [show (performMainCheckSorted r).languageStyleMixing =
        sortMixingCorrections r.languageStyleMixing from rfl,
      mixingEntries_sortMixingCorrections]
    exact stableSortBy_pairwise _ _
  · rw [show (performMainCheckSorted r).languageStyleMixing =
        sortMixingCorrections r.languageStyleMixing from rfl,
      mixingEntries_sortMixingCorrections]
    exact stableSortBy_perm _ _
  · intro k
    rw [show (performMainCheckSorted r).languageStyleMixing =
        sortMixingCorrections r.languageStyleMixing from rfl,
      mixingEntries_sortMixingCorrections]
    exact stableSortBy_filter _ _ k
  · exact stableSortBy_pairwise _ tl
  · exact stableSortBy_perm _ tl
  · exact fun k => stableSortBy_filter _ tl k
  · exact stableSortBy_pairwise _ sl
  · exact stableSortBy_perm _ sl
  · exact fun k => stableSortBy_filter _ sl k

/-- C9: when the main check completes and the tone check then fails
with a service error, the spelling, punctuation, euphony, and
style-mixing results already stored by the main check are kept (no
rollback), the run stops before the style, content, and highlight
steps, exactly one error message is surfaced, and the app returns to
idle. -/
theorem toneFailure_preserves_main (hm : List HlItem → WordDoc → WordDoc)
    (apiKey selectedTone text e : List Nat) (selectedStyle : StyleSel)
    (sres : Except (List Nat) (Option (List StyleSuggestion)))
    (cres : Except (List Nat) (Option ContentAnalysis))
    (st : AppState) (raw : MainCheckResult)
    (hkey : apiKey ≠ []) (htext : trim text ≠ [])
    (htone : selectedTone ≠ []) (hene : e ≠ []) :
    checkSpelling hm apiKey selectedTone selectedStyle
        ⟨.ok (some raw), .error e, sres, cres⟩ text st =
      { doc := clearHighlights st.doc
        corrections := (performMainCheckSorted raw).spellingErrors
        toneSuggestions := []
        styleSuggestions := []
        languageStyleMixing := (performMainCheckSorted raw).languageStyleMixing
        punctuationIssues := (performMainCheckSorted raw).punctuationIssues
        euphonyImprovements := (performMainCheckSorted raw).euphonyImprovements
        contentAnalysis := none
        stats := performMainCheckStats text (performMainCheckSorted raw).spellingErrors
        isLoading := false
        activeModal := st.activeModal
        messages := st.messages ++ [(e, .error)] } := by
  simp only [checkSpelling]
  rw [if_neg hkey, if_neg htext]
  simp only [applyMainCheck, runToneStep]
  rw [if_neg htone]
  simp only [runFailed]
  rw [if_neg hene]

/-- Witness for C9 at a one-word document, an empty batch from the
main check, and a failing tone check. -/
theorem toneFailure_preserves_main_witness :
    checkSpelling (fun _ d => d) [107] [102] StyleSel.noStyle
        ⟨.ok (some ⟨[], [], [], none⟩), .error [101], .ok none, .ok none⟩ [97]
        ⟨[], [], [], [], none, [], [], none, ⟨0, 0, 100⟩, false, .noModal, []⟩ =
      { doc := clearHighlights []
        corrections := (performMainCheckSorted ⟨[], [], [], none⟩).spellingErrors
        toneSuggestions := []
        styleSuggestions := []
        languageStyleMixing := (performMainCheckSorted ⟨[], [], [], none⟩).languageStyleMixing
        punctuationIssues := (performMainCheckSorted ⟨[], [], [], none⟩).punctuationIssues
        euphonyImprovements := (performMainCheckSorted ⟨[], [], [], none⟩).euphonyImprovements
        contentAnalysis := none
        stats := performMainCheckStats [97]
          (performMainCheckSorted ⟨[], [], [], none⟩).spellingErrors
        isLoading := false
        activeModal := .noModal
        messages := [] ++ [([101], .error)] } :=
  toneFailure_preserves_main (fun _ d => d) [107] [102] [97] [101] StyleSel.noStyle
    (.ok none) (.ok none)
    ⟨[], [], [], [], none, [], [], none, ⟨0, 0, 100⟩, false, .noModal, []⟩
    ⟨[], [], [], none⟩ (by decide) (by decide) (by decide) (by decide)

/-- Helper: a carriage return or line feed is whitespace. -/
theorem crlf_imp_space (c : Nat) (h : isCRLF c = true) : isSpaceJS c = true := by
  simp only [isCRLF, Bool.or_eq_true, decide_eq_true_eq] at h
  rcases h with rfl | rfl <;> simp [isSpaceJS]

/-- Helper: the head surviving `dropWhile p` fails `p`. -/
theorem head_dropWhile_not (p : Nat → Bool) (l : List Nat) (c : Nat)
    (h : (l.dropWhile p).head? = some c) : p c = false := by
  induction l with
  | nil => simp at h
  | cons a l ih =>
    rw [List.dropWhile_cons] at h
    by_cases ha : p a = true
    · rw [if_pos ha] at h
      exact ih h
    · rw [if_neg ha] at h
      simp only [List.head?_cons, Option.some_inj] at h
      subst h
      simpa using ha

/-- Helper: `getLast?` of a cons with a nonempty tail is the tail's. -/
theorem getLast?_cons_of_ne_nil {α : Type} (a : α) (l : List α) (h : l ≠ []) :
    (a :: l).getLast? = l.getLast? := by
  cases l with
  | nil => exact absurd rfl h
  | cons b l2 => exact List.getLast?_cons_cons

/-- Helper: the last character surviving `trimEnd` is not
whitespace. -/
theorem trimEnd_getLast_not (l : List Nat) (c : Nat)
    (h : (trimEnd l).getLast? = some c) : isSpaceJS c = false := by
  induction l with
  | nil => simp [trimEnd] at h
  | cons a l ih =>
    simp only [trimEnd] at h
    by_cases hr : trimEnd l = []
    · rw [if_pos hr] at h
      by_cases ha : isSpaceJS a = true
      · rw [if_pos ha] at h
        simp at h
      · rw [if_neg ha] at h
        rw [List.getLast?_singleton, Option.some_inj] at h
        subst h
        simpa using ha
    · rw [if_neg hr, getLast?_cons_of_ne_nil a _ hr] at h
      exact ih h

/-- Helper: a nonempty `trimEnd` keeps the head. -/
theorem trimEnd_head (l : List Nat) (h : trimEnd l ≠ []) :
    (trimEnd l).head? = l.head? := by
  cases l with
  | nil => exact absurd rfl h
  | cons a l =>
    simp only [trimEnd] at h ⊢
    by_cases hr : trimEnd l = []
    · rw [if_pos hr] at h ⊢
      by_cases ha : isSpaceJS a = true
      · rw [if_pos ha] at h
        exact absurd rfl h
      · rw [if_neg ha]
        rfl
    · rw [if_neg hr]
      rfl

/-- Helper: `dropWhile` is the identity when the head fails `p`. -/
theorem dropWhile_eq_self_of_head (p : Nat → Bool) (l : List Nat)
    (h : ∀ c, l.head? = some c → p c = false) : l.dropWhile p = l := by
  cases l with
  | nil => rfl
  | cons a l =>
    rw [List.dropWhile_cons, if_neg (by simp [h a rfl])]

/-- Helper: `trimEnd` is the identity when the last character is not
whitespace. -/
theorem trimEnd_eq_self_of_getLast (l : List Nat)
    (h : ∀ c, l.getLast? = some c → isSpaceJS c = false) : trimEnd l = l := by
  induction l with
  | nil => rfl
  | cons a l ih =>
    simp only [trimEnd]
    by_cases hl : l = []
    · subst hl
      rw [if_pos (show trimEnd ([] : List Nat) = [] from rfl),
        if_neg (by simp [h a (List.getLast?_singleton a)])]
    · have hteq : trimEnd l = l :=
        ih (fun c hc => h c (by rw [getLast?_cons_of_ne_nil a l hl]; exact hc))


      rw [hteq, if_neg hl]

/-- Helper: the first character surviving `trim` is not whitespace. -/
theorem trim_head_not (s : List Nat) (c : Nat) (h : (trim s).head? = some c) :
    isSpaceJS c = false := by
  have hne : trimEnd (s.dropWhile isSpaceJS) ≠ [] := by
    intro hnil
    rw [trim, hnil] at h
    simp at h
  rw [trim, trimEnd_head _ hne] at h
  exact head_dropWhile_not isSpaceJS s c h

/-- Helper: the last character surviving `trim` is not whitespace. -/
theorem trim_getLast_not (s : List Nat) (c : Nat) (h : (trim s).getLast? = some c) :
    isSpaceJS c = false := by
  rw [trim] at h
  exact trimEnd_getLast_not _ c h

/-- Helper: unfolding `collapseRuns` on a singleton. -/
theorem collapseRuns_single (p : Nat → Bool) (c : Nat) :
    collapseRuns p [c] = if p c then [32] else [c] := rfl

/-- Helper: unfolding `collapseRuns` on two or more characters. -/
theorem collapseRuns_cons₂ (p : Nat → Bool) (c d : Nat) (l : List Nat) :
    collapseRuns p (c :: d :: l) =
      if p c then
        (if p d then collapseRuns p (d :: l) else 32 :: collapseRuns p (d :: l))
      else c :: collapseRuns p (d :: l) := rfl

/-- Helper: the head of a collapsed nonempty list is the original head
when it fails `p`, and the single space 32 when it satisfies it. -/
theorem collapseRuns_head (p : Nat → Bool) (c : Nat) (l : List Nat) :
    (collapseRuns p (c :: l)).head? = some (if p c then 32 else c) := by
  induction l generalizing c with
  | nil =>
    rw [collapseRuns_single]
    by_cases h : p c = true
    · rw [if_pos h, if_pos h]
      rfl
    · rw [if_neg h, if_neg h]
      rfl
  | cons d l ih =>
    rw [collapseRuns_cons₂]
    by_cases hc : p c = true
    · rw [if_pos hc, if_pos hc]
      by_cases hd : p d = true
      · rw [if_pos hd, ih d, if_pos hd]
      · rw [if_neg hd]
        rfl
    · rw [if_neg hc, if_neg hc]
      rfl

/-- Helper: collapsing a nonempty list is nonempty. -/
theorem collapseRuns_ne_nil (p : Nat → Bool) (c : Nat) (l : List Nat) :
    collapseRuns p (c :: l) ≠ [] := by
  intro h
  have := collapseRuns_head p c l
  rw [h] at this
  simp at this

/-- Helper: the last element of a collapsed list is the original last
element when it fails `p`, and 32 when it satisfies it. -/
theorem collapseRuns_getLast (p : Nat → Bool) (c d : Nat) (l : List Nat)
    (h : (c :: l).getLast? = some d) :
    (collapseRuns p (c :: l)).getLast? = some (if p d then 32 else d) := by
  induction l generalizing c with
  | nil =>
    rw [List.getLast?_singleton, Option.some_inj] at h
    subst h
    rw [collapseRuns_single]
    by_cases hc : p c = true
    · rw [if_pos hc, if_pos hc]
      rfl
    · rw [if_neg hc, if_neg hc]
      rfl
  | cons b l ih =>
    rw [List.getLast?_cons_cons] at h
    rw [collapseRuns_cons₂]
    by_cases hc : p c = true
    · rw [if_pos hc]
      by_cases hb : p b = true
      · rw [if_pos hb]
        exact ih b h
      · rw [if_neg hb, getLast?_cons_of_ne_nil 32 _ (collapseRuns_ne_nil p b l)]
        exact ih b h
    · rw [if_neg hc, getLast?_cons_of_ne_nil c _ (collapseRuns_ne_nil p b l)]
      exact ih b h

/-- Helper: every element of a collapsed list is either the space 32
or an original element failing `p`. -/
theorem collapseRuns_mem (p : Nat → Bool) (l : List Nat) (x : Nat)
    (h : x ∈ collapseRuns p l) : x = 32 ∨ (x ∈ l ∧ p x = false) := by
  induction l with
  | nil => simp [collapseRuns] at h
  | cons c rest ih =>
    cases rest with
    | nil =>
      rw [collapseRuns_single] at h
      by_cases hc : p c = true
      · rw [if_pos hc] at h
        simp at h
        exact Or.inl h
      · rw [if_neg hc] at h
        simp at h
        subst h
        exact Or.inr ⟨List.mem_cons_self x [], by simpa using hc⟩
    | cons d t =>
      rw [collapseRuns_cons₂] at h
      by_cases hc : p c = true
      · rw [if_pos hc] at h
        by_cases hd : p d = true
        · rw [if_pos hd] at h
          rcases ih h with h32 | ⟨hm, hp⟩
          · exact Or.inl h32
          · exact Or.inr ⟨List.mem_cons_of_mem c hm, hp⟩
        · rw [if_neg hd] at h
          rcases List.mem_cons.mp h with rfl | h2
          · exact Or.inl rfl
          · rcases ih h2 with h32 | ⟨hm, hp⟩
            · exact Or.inl h32
            · exact Or.inr ⟨List.mem_cons_of_mem c hm, hp⟩
      · rw [if_neg hc] at h
        rcases List.mem_cons.mp h with rfl | h2
        · exact Or.inr ⟨List.mem_cons_self x (d :: t), by simpa using hc⟩
        · rcases ih h2 with h32 | ⟨hm, hp⟩
          · exact Or.inl h32
          · exact Or.inr ⟨List.mem_cons_of_mem c hm, hp⟩

/-- Helper: in a collapsed list, no element satisfying `p` is followed
by another element satisfying `p`. -/
theorem collapseRuns_chain (p : Nat → Bool) (l : List Nat) :
    (collapseRuns p l).Chain' (fun a b => p a = true → p b = false) := by
  induction l with
  | nil => simp [collapseRuns]
  | cons c rest ih =>
    cases rest with
    | nil =>
      rw [collapseRuns_single]
      by_cases hc : p c = true
      · rw [if_pos hc]
        simp
      · rw [if_neg hc]
        simp
    | cons d t =>
      rw [collapseRuns_cons₂]
      by_cases hc : p c = true
      · rw [if_pos hc]
        by_cases hd : p d = true
        · rw [if_pos hd]
          exact ih
        · rw [if_neg hd]
          refine List.chain'_cons'.mpr ⟨?_, ih⟩
          intro y hy
          rw [collapseRuns_head p d t, Option.mem_def, Option.some_inj] at hy
          rw [if_neg (by simp [hd])] at hy
          intro _
          rw [← hy]
          simpa using hd
      · rw [if_neg hc]
        refine List.chain'_cons'.mpr ⟨?_, ih⟩
        intro y hy hcy
        exact absurd hcy (by simpa using hc)

/-- Helper: collapsing is the identity on a list without `p`
characters. -/
theorem collapseRuns_eq_self_of_not (p : Nat → Bool) (l : List Nat)
    (h : ∀ x ∈ l, p x = false) : collapseRuns p l = l := by
  induction l with
  | nil => rfl
  | cons c rest ih =>
    have hc : ¬ p c = true := by simp [h c (List.mem_cons_self c rest)]
    have htl : collapseRuns p rest = rest :=
      ih (fun x hx => h x (List.mem_cons_of_mem c hx))
    cases rest with
    | nil =>
      rw [collapseRuns_single, if_neg hc]
    | cons d t =>
      rw [collapseRuns_cons₂, if_neg hc, htl]

/-- Helper: collapsing is the identity on an already-collapsed list —
one whose `p` characters are all the space 32 and never adjacent. -/
theorem collapseRuns_eq_self_of_collapsed (p : Nat → Bool) (l : List Nat)
    (h32 : ∀ x ∈ l, p x = true → x = 32)
    (hch : l.Chain' (fun a b => p a = true → p b = false)) :
    collapseRuns p l = l := by
  induction l with
  | nil => rfl
  | cons c rest ih =>
    have htl : collapseRuns p rest = rest :=
      ih (fun x hx hp => h32 x (List.mem_cons_of_mem c hx) hp) hch.tail
    cases rest with
    | nil =>
      rw [collapseRuns_single]
      by_cases hc : p c = true
      · rw [if_pos hc, h32 c (List.mem_cons_self c []) hc]
      · rw [if_neg hc]
    | cons d t =>
      rw [collapseRuns_cons₂]
      by_cases hc : p c = true
      · have hd : p d = false := (List.chain'_cons.mp hch).1 hc
        rw [if_pos hc, if_neg (by simp [hd]), htl,
          h32 c (List.mem_cons_self c (d :: t)) hc]
      · rw [if_neg hc, htl]

/-- Helper: a successful inner lookup comes from an entry with the
looked-up key. -/
theorem innerLookup_mem (c v : Nat) (l : List (Nat × Nat))
    (h : innerLookup c l = some v) : (c, v) ∈ l := by
  induction l with
  | nil => simp [innerLookup] at h
  | cons kv t ih =>
    obtain ⟨k, w⟩ := kv
    simp only [innerLookup] at h
    by_cases h1 : c < k
    · rw [if_pos h1] at h
      exact absurd h (by simp)
    · rw [if_neg h1] at h
      by_cases h2 : c = k
      · rw [if_pos h2] at h
        simp only [Option.some_inj] at h
        subst h2
        subst h
        exact List.mem_cons_self _ _
      · rw [if_neg h2] at h
        exact List.mem_cons_of_mem _ (ih h)

/-- Helper: a successful bucket find comes from a bucket of the
list. -/
theorem bucketFind_mem (b : Nat) (e : List (Nat × Nat))
    (l : List (Nat × List (Nat × Nat))) (h : bucketFind b l = some e) :
    ∃ i, (i, e) ∈ l := by
  induction l with
  | nil => simp [bucketFind] at h
  | cons be t ih =>
    obtain ⟨i, e1⟩ := be
    simp only [bucketFind] at h
    by_cases h1 : b < i
    · rw [if_pos h1] at h
      exact absurd h (by simp)
    · rw [if_neg h1] at h
      by_cases h2 : b = i
      · rw [if_pos h2] at h
        simp only [Option.some_inj] at h
        subst h
        exact ⟨i, List.mem_cons_self _ _⟩
      · rw [if_neg h2] at h
        obtain ⟨j, hj⟩ := ih h
        exact ⟨j, List.mem_cons_of_mem _ hj⟩

/-- Helper: `lowerSimple` either fixes its argument or returns the
value of a table entry whose key is the argument. -/
theorem lowerSimple_cases (c : Nat) :
    lowerSimple c = c ∨
      ∃ be ∈ lowerBuckets, ∃ kv ∈ be.2, kv.1 = c ∧ kv.2 = lowerSimple c := by
  cases hb : bucketFind (c / 64) lowerBuckets with
  | none =>
    left
    unfold lowerSimple
    rw [hb]
  | some e =>
    cases hi : innerLookup c e with
    | none =>
      left
      unfold lowerSimple
      rw [hb]
      show (match innerLookup c e with | none => c | some v => v) = c
      rw [hi]
    | some v =>
      right
      obtain ⟨i, hmem⟩ := bucketFind_mem _ _ _ hb
      refine ⟨(i, e), hmem, (c, v), innerLookup_mem _ _ _ hi, rfl, ?_⟩
      show v = lowerSimple c
      unfold lowerSimple
      rw [hb]
      show v = (match innerLookup c e with | none => c | some v => v)
      rw [hi]

set_option maxRecDepth 8000 in
/-- Helper: no key of the lowercase table is whitespace. -/
theorem lowerBuckets_keys_not_space :
    lowerBuckets.all (fun be => be.2.all (fun kv => !isSpaceJS kv.1)) = true := by
  decide

set_option maxRecDepth 8000 in
set_option maxHeartbeats 8000000 in
/-- Helper: every value of the lowercase table is a non-whitespace
fixed point of `lowerSimple` and is neither U+03A3 nor U+0130. -/
theorem lowerBuckets_vals_good :
    lowerBuckets.all (fun be => be.2.all (fun kv =>
      !isSpaceJS kv.2 && (lowerSimple kv.2 == kv.2) &&
      decide (kv.2 ≠ 931) && decide (kv.2 ≠ 304))) = true := by
  decide

/-- Helper: the per-entry form of the two table facts. -/
theorem lowerBuckets_entry (be : Nat × List (Nat × Nat)) (kv : Nat × Nat)
    (hbe : be ∈ lowerBuckets) (hkv : kv ∈ be.2) :
    isSpaceJS kv.1 = false ∧ isSpaceJS kv.2 = false ∧
      lowerSimple kv.2 = kv.2 ∧ kv.2 ≠ 931 ∧ kv.2 ≠ 304 := by
  have h1 := List.all_eq_true.mp lowerBuckets_keys_not_space be hbe
  have h2 := List.all_eq_true.mp lowerBuckets_vals_good be hbe
  have h1k := List.all_eq_true.mp h1 kv hkv
  have h2k := List.all_eq_true.mp h2 kv hkv
  simp only [Bool.and_eq_true, Bool.not_eq_true', beq_iff_eq,
    decide_eq_true_eq] at h1k h2k
  exact ⟨h1k, h2k.1.1.1, h2k.1.1.2, h2k.1.2, h2k.2⟩

/-- Helper: no whitespace character has a lowercase mapping. -/
theorem lowerSimple_of_space (c : Nat) (h : isSpaceJS c = true) :
    lowerSimple c = c := by
  rcases lowerSimple_cases c with heq | ⟨be, hbe, kv, hkv, hk, hv⟩
  · exact heq
  · have hks := (lowerBuckets_entry be kv hbe hkv).1
    rw [hk] at hks
    rw [hks] at h
    exact Bool.noConfusion h

/-- Helper: the simple lowercase mapping preserves the whitespace
test. -/
theorem lowerSimple_space (c : Nat) : isSpaceJS (lowerSimple c) = isSpaceJS c := by
  rcases lowerSimple_cases c with heq | ⟨be, hbe, kv, hkv, hk, hv⟩
  · rw [heq]
  · have h := lowerBuckets_entry be kv hbe hkv
    have hc : isSpaceJS c = false := hk ▸ h.1
    have hl : isSpaceJS (lowerSimple c) = false := hv ▸ h.2.1
    rw [hc, hl]

/-- Helper: the simple lowercase mapping preserves the no-CR/LF
property. -/
theorem lowerSimple_not_crlf (c : Nat) (h : isCRLF c = false) :
    isCRLF (lowerSimple c) = false := by
  rcases lowerSimple_cases c with heq | ⟨be, hbe, kv, hkv, hk, hv⟩
  · rw [heq]
    exact h
  · have hsp : isSpaceJS (lowerSimple c) = false :=
      hv ▸ (lowerBuckets_entry be kv hbe hkv).2.1
    by_cases hcr : isCRLF (lowerSimple c) = true
    · rw [crlf_imp_space _ hcr] at hsp
      exact Bool.noConfusion hsp
    · simpa using hcr

/-- Helper: away from U+03A3 and U+0130, the simple mapping lands on
fixed points that are again away from the two special characters. -/
theorem lowerSimple_fix (c : Nat) (h931 : c ≠ 931) (h304 : c ≠ 304) :
    lowerSimple c ≠ 931 ∧ lowerSimple c ≠ 304 ∧
      lowerSimple (lowerSimple c) = lowerSimple c := by
  rcases lowerSimple_cases c with heq | ⟨be, hbe, kv, hkv, hk, hv⟩
  · rw [heq]
    exact ⟨h931, h304, heq⟩
  · have h := lowerBuckets_entry be kv hbe hkv
    rw [← hv]
    exact ⟨h.2.2.2.1, h.2.2.2.2, h.2.2.1⟩

/-- Helper: case analysis on one character's lowercase block. -/
theorem lowerChar_cases (b : List Nat) (c : Nat) (a : List Nat) :
    (c = 931 ∧ (lowerChar b c a = [962] ∨ lowerChar b c a = [963])) ∨
    (c = 304 ∧ lowerChar b c a = [105, 775]) ∨
    (c ≠ 931 ∧ c ≠ 304 ∧ lowerChar b c a = [lowerSimple c]) := by
  by_cases h1 : c = 931
  · subst h1
    refine Or.inl ⟨rfl, ?_⟩
    unfold lowerChar
    rw [if_pos rfl]
    by_cases h2 : (precededByCased b && !followedByCased a) = true
    · rw [if_pos h2]
      exact Or.inl rfl
    · rw [if_neg h2]
      exact Or.inr rfl
  · by_cases h2 : c = 304
    · subst h2
      refine Or.inr (Or.inl ⟨rfl, ?_⟩)
      unfold lowerChar
      rw [if_neg h1, if_pos rfl]
    · refine Or.inr (Or.inr ⟨h1, h2, ?_⟩)
      unfold lowerChar
      rw [if_neg h1, if_neg h2]

/-- Helper: a lowercase block is never empty. -/
theorem lowerChar_ne_nil (b : List Nat) (c : Nat) (a : List Nat) :
    lowerChar b c a ≠ [] := by
  rcases lowerChar_cases b c a with ⟨-, h | h⟩ | ⟨-, h⟩ | ⟨-, -, h⟩ <;>
    rw [h] <;> simp

/-- Helper: a non-whitespace character lowercases to non-whitespace
characters only. -/
theorem lowerChar_not_space (b : List Nat) (c : Nat) (a : List Nat)
    (h : isSpaceJS c = false) : ∀ e ∈ lowerChar b c a, isSpaceJS e = false := by
  intro e he
  rcases lowerChar_cases b c a with ⟨-, h1 | h1⟩ | ⟨-, h1⟩ | ⟨-, -, h1⟩ <;>
    rw [h1] at he
  · simp only [List.mem_singleton] at he
    subst he
    decide
  · simp only [List.mem_singleton] at he
    subst he
    decide
  · rcases List.mem_cons.mp he with rfl | he2
    · decide
    · simp only [List.mem_singleton] at he2
      subst he2
      decide
  · simp only [List.mem_singleton] at he
    subst he
    rw [lowerSimple_space]
    exact h

/-- Helper: a whitespace character lowercases to itself. -/
theorem lowerChar_of_space (b : List Nat) (c : Nat) (a : List Nat)
    (h : isSpaceJS c = true) : lowerChar b c a = [c] := by
  rcases lowerChar_cases b c a with ⟨h0, -⟩ | ⟨h0, -⟩ | ⟨-, -, h1⟩
  · subst h0
    exact absurd h (by decide)
  · subst h0
    exact absurd h (by decide)
  · rw [h1, lowerSimple_of_space c h]

/-- Helper: a CR/LF-free character lowercases to CR/LF-free
characters. -/
theorem lowerChar_not_crlf (b : List Nat) (c : Nat) (a : List Nat)
    (h : isCRLF c = false) : ∀ e ∈ lowerChar b c a, isCRLF e = false := by
  intro e he
  rcases lowerChar_cases b c a with ⟨-, h1 | h1⟩ | ⟨-, h1⟩ | ⟨-, -, h1⟩ <;>
    rw [h1] at he
  · simp only [List.mem_singleton] at he
    subst he
    decide
  · simp only [List.mem_singleton] at he
    subst he
    decide
  · rcases List.mem_cons.mp he with rfl | he2
    · decide
    · simp only [List.mem_singleton] at he2
      subst he2
      decide
  · simp only [List.mem_singleton] at he
    subst he
    exact lowerSimple_not_crlf c h

/-- Helper: every character a lowercase block emits is a fixed point
of the simple mapping and is neither U+03A3 nor U+0130. -/
theorem lowerChar_fix (b : List Nat) (c : Nat) (a : List Nat) :
    ∀ e ∈ lowerChar b c a, e ≠ 931 ∧ e ≠ 304 ∧ lowerSimple e = e := by
  intro e he
  rcases lowerChar_cases b c a with ⟨-, h1 | h1⟩ | ⟨-, h1⟩ | ⟨h931, h304, h1⟩ <;>
    rw [h1] at he
  · simp only [List.mem_singleton] at he
    subst he
    exact ⟨by decide, by decide, by decide⟩
  · simp only [List.mem_singleton] at he
    subst he
    exact ⟨by decide, by decide, by decide⟩
  · rcases List.mem_cons.mp he with rfl | he2
    · exact ⟨by decide, by decide, by decide⟩
    · simp only [List.mem_singleton] at he2
      subst he2
      exact ⟨by decide, by decide, by decide⟩
  · simp only [List.mem_singleton] at he
    subst he
    exact lowerSimple_fix c h931 h304

/-- Helper: an element reported by `getLast?` is a member. -/
theorem mem_of_getLast?_eq {α : Type} (l : List α) (a : α)
    (h : l.getLast? = some a) : a ∈ l := by
  obtain ⟨hne, heq⟩ := List.mem_getLast?_eq_getLast (Option.mem_def.mpr h)
  rw [heq]
  exact List.getLast_mem hne

/-- Helper: `getLast?` of an append with a nonempty right part. -/
theorem getLast?_append_right {α : Type} (l l2 : List α) (h : l2 ≠ []) :
    (l ++ l2).getLast? = l2.getLast? := by
  induction l with
  | nil => rfl
  | cons a t ih =>
    have hne : t ++ l2 ≠ [] := by
      intro hnil
      exact h (List.append_eq_nil.mp hnil).2
    rw [List.cons_append, getLast?_cons_of_ne_nil a _ hne, ih]

/-- Helper: one unfolding step of the lowercase worker. -/
theorem toLowerCaseGo_cons (b : List Nat) (c : Nat) (rest : List Nat) :
    toLowerCaseGo b (c :: rest) = lowerChar b c rest ++ toLowerCaseGo (c :: b) rest :=
  rfl

/-- Helper: lowercasing a nonempty string is nonempty. -/
theorem toLowerCaseGo_ne_nil (b : List Nat) (c : Nat) (rest : List Nat) :
    toLowerCaseGo b (c :: rest) ≠ [] := by
  simp only [toLowerCaseGo]
  intro h
  exact lowerChar_ne_nil b c rest (List.append_eq_nil.mp h).1

/-- Helper: whitespace in the lowercased string comes from collapsed
whitespace in the input. -/
theorem toLowerCaseGo_mem32 : ∀ (s b : List Nat),
    (∀ c ∈ s, isSpaceJS c = true → c = 32) →
    ∀ e ∈ toLowerCaseGo b s, isSpaceJS e = true → e = 32 := by
  intro s
  induction s with
  | nil =>
    intro b hin e he
    simp [toLowerCaseGo] at he
  | cons c rest ih =>
    intro b hin e he hsp
    simp only [toLowerCaseGo] at he
    rcases List.mem_append.mp he with h1 | h2
    · by_cases hc : isSpaceJS c = true
      · rw [lowerChar_of_space b c rest hc] at h1
        simp only [List.mem_singleton] at h1
        rw [h1]
        exact hin c (List.mem_cons_self c rest) hc
      · rw [lowerChar_not_space b c rest (by simpa using hc) e h1] at hsp
        exact Bool.noConfusion hsp
    · exact ih (c :: b) (fun d hd => hin d (List.mem_cons_of_mem c hd)) e h2 hsp

/-- Helper: a CR/LF-free input lowercases to a CR/LF-free string. -/
theorem toLowerCaseGo_not_crlf : ∀ (s b : List Nat),
    (∀ c ∈ s, isCRLF c = false) →
    ∀ e ∈ toLowerCaseGo b s, isCRLF e = false := by
  intro s
  induction s with
  | nil =>
    intro b hin e he
    simp [toLowerCaseGo] at he
  | cons c rest ih =>
    intro b hin e he
    simp only [toLowerCaseGo] at he
    rcases List.mem_append.mp he with h1 | h2
    · exact lowerChar_not_crlf b c rest (hin c (List.mem_cons_self c rest)) e h1
    · exact ih (c :: b) (fun d hd => hin d (List.mem_cons_of_mem c hd)) e h2

/-- Helper: the head of the lowercased string is non-whitespace when
the input head is. -/
theorem toLowerCaseGo_head_not_space : ∀ (s b : List Nat) (c : Nat),
    s.head? = some c → isSpaceJS c = false →
    ∀ e, (toLowerCaseGo b s).head? = some e → isSpaceJS e = false := by
  intro s
  cases s with
  | nil =>
    intro b c h
    simp at h
  | cons c0 rest =>
    intro b c h hsp e he
    simp only [List.head?_cons, Option.some_inj] at h
    rw [← h] at hsp
    rw [toLowerCaseGo_cons] at he
    obtain ⟨e0, t0, hch⟩ := List.exists_cons_of_ne_nil (lowerChar_ne_nil b c0 rest)
    rw [hch, List.cons_append, List.head?_cons, Option.some_inj] at he
    rw [← he]
    exact lowerChar_not_space b c0 rest hsp e0
      (by rw [hch]; exact List.mem_cons_self _ _)

/-- Helper: the last character of the lowercased string is
non-whitespace when the input's last character is. -/
theorem toLowerCaseGo_last_not_space : ∀ (s b : List Nat) (d : Nat),
    s.getLast? = some d → isSpaceJS d = false →
    ∀ e, (toLowerCaseGo b s).getLast? = some e → isSpaceJS e = false := by
  intro s
  induction s with
  | nil =>
    intro b d h
    simp at h
  | cons c rest ih =>
    intro b d hd hdsp e he
    cases rest with
    | nil =>
      rw [List.getLast?_singleton, Option.some_inj] at hd
      rw [← hd] at hdsp
      rw [toLowerCaseGo_cons, show toLowerCaseGo (c :: b) [] = [] from rfl,
        List.append_nil] at he
      exact lowerChar_not_space b c [] hdsp e (mem_of_getLast?_eq _ _ he)
    | cons r t =>
      rw [toLowerCaseGo_cons,
        getLast?_append_right _ _ (toLowerCaseGo_ne_nil (c :: b) r t)] at he
      rw [List.getLast?_cons_cons] at hd
      exact ih (c :: b) d hd hdsp e he

/-- Helper: an all-non-whitespace list trivially satisfies the
no-adjacent-whitespace chain. -/
theorem chain'_of_not_space (l : List Nat)
    (h : ∀ e ∈ l, isSpaceJS e = false) :
    l.Chain' (fun x y => isSpaceJS x = true → isSpaceJS y = false) := by
  induction l with
  | nil => simp
  | cons a t ih =>
    refine List.chain'_cons'.mpr
      ⟨?_, ih (fun e he => h e (List.mem_cons_of_mem a he))⟩
    intro y _ hsp
    rw [h a (List.mem_cons_self a t)] at hsp
    exact Bool.noConfusion hsp

/-- Helper: lowercasing keeps the no-adjacent-whitespace chain of its
input. -/
theorem toLowerCaseGo_chain : ∀ (s b : List Nat),
    s.Chain' (fun x y => isSpaceJS x = true → isSpaceJS y = false) →
    (toLowerCaseGo b s).Chain'
      (fun x y => isSpaceJS x = true → isSpaceJS y = false) := by
  intro s
  induction s with
  | nil =>
    intro b _
    simp [toLowerCaseGo]
  | cons c rest ih =>
    intro b hch
    simp only [toLowerCaseGo]
    rw [List.chain'_append]
    refine ⟨?_, ih (c :: b) hch.tail, ?_⟩
    · by_cases hc : isSpaceJS c = true
      · rw [lowerChar_of_space b c rest hc]
        simp
      · exact chain'_of_not_space _ (lowerChar_not_space b c rest (by simpa using hc))
    · intro x hx y hy hspx
      have hxmem : x ∈ lowerChar b c rest :=
        mem_of_getLast?_eq _ _ (Option.mem_def.mp hx)
      by_cases hc : isSpaceJS c = true
      · rw [lowerChar_of_space b c rest hc] at hxmem
        simp only [List.mem_singleton] at hxmem
        cases rest with
        | nil => simp [toLowerCaseGo] at hy
        | cons r t =>
          have hrd : isSpaceJS r = false := (List.chain'_cons.mp hch).1 hc
          rw [Option.mem_def, toLowerCaseGo_cons] at hy
          obtain ⟨e0, t0, hche⟩ :=
            List.exists_cons_of_ne_nil (lowerChar_ne_nil (c :: b) r t)
          rw [hche, List.cons_append, List.head?_cons, Option.some_inj] at hy
          rw [← hy]
          exact lowerChar_not_space (c :: b) r t hrd e0
            (by rw [hche]; exact List.mem_cons_self _ _)
      · rw [lowerChar_not_space b c rest (by simpa using hc) x hxmem] at hspx
        exact Bool.noConfusion hspx

/-- Helper: every character the lowercase pass emits is a fixed point
away from the two special characters. -/
theorem toLowerCaseGo_fix : ∀ (s b : List Nat), ∀ e ∈ toLowerCaseGo b s,
    e ≠ 931 ∧ e ≠ 304 ∧ lowerSimple e = e := by
  intro s
  induction s with
  | nil =>
    intro b e he
    simp [toLowerCaseGo] at he
  | cons c rest ih =>
    intro b e he
    simp only [toLowerCaseGo] at he
    rcases List.mem_append.mp he with h1 | h2
    · exact lowerChar_fix b c rest e h1
    · exact ih (c :: b) e h2

/-- Helper: the lowercase pass is the identity on a string of fixed
points avoiding the two special characters. -/
theorem toLowerCaseGo_eq_self : ∀ (s b : List Nat),
    (∀ e ∈ s, e ≠ 931 ∧ e ≠ 304 ∧ lowerSimple e = e) →
    toLowerCaseGo b s = s := by
  intro s
  induction s with
  | nil =>
    intro b _
    rfl
  | cons c rest ih =>
    intro b h
    obtain ⟨h931, h304, hfix⟩ := h c (List.mem_cons_self c rest)
    simp only [toLowerCaseGo]
    rcases lowerChar_cases b c rest with ⟨h0, -⟩ | ⟨h0, -⟩ | ⟨-, -, h1⟩
    · exact absurd h0 h931
    · exact absurd h0 h304
    · rw [h1, hfix, ih (c :: b) (fun e he => h e (List.mem_cons_of_mem c he))]
      rfl

/-- C6: normalization is idempotent — `normalize (normalize x) =
normalize x` for every string — and it identifies fragments differing
only in surrounding or internal spacing, newlines, or case:
`normalize " Ami  yai\n" = normalize "ami yai"`. -/
theorem normalize_idem_and_example :
    (∀ x : List Nat, normalize (normalize x) = normalize x) ∧
    normalize [32, 65, 109, 105, 32, 32, 121, 97, 105, 10] =
      normalize [97, 109, 105, 32, 121, 97, 105] := by
  constructor
  · intro x
    by_cases hx : x = []
    · subst hx
      rfl
    · by_cases hn : normalize x = []
      · rw [hn]
        rfl
      · have hdef : normalize x =
            toLowerCase (collapseRuns isSpaceJS (collapseRuns isCRLF (trim x))) := by
          conv_lhs => rw [normalize]
          rw [if_neg hx]
        have ht : trim x ≠ [] := by
          intro h
          apply hn
          rw [hdef, h]
          rfl
        obtain ⟨c₀, t0, hct⟩ := List.exists_cons_of_ne_nil ht
        have hc₀sp : isSpaceJS c₀ = false := trim_head_not x c₀ (by rw [hct]; rfl)
        have hc₀cr : isCRLF c₀ = false := by
          by_cases h : isCRLF c₀ = true
          · exact absurd (crlf_imp_space c₀ h) (by simp [hc₀sp])
          · simpa using h
        have hhead1 : (collapseRuns isCRLF (trim x)).head? = some c₀ := by
          rw [hct, collapseRuns_head, if_neg (by simp [hc₀cr])]
        obtain ⟨c₁, m1, hm1⟩ : ∃ c₁ m1, collapseRuns isCRLF (trim x) = c₁ :: m1 := by
          cases hcc : collapseRuns isCRLF (trim x) with
          | nil =>
            rw [hcc] at hhead1
            simp at hhead1
          | cons a b => exact ⟨a, b, rfl⟩
        have hc₁ : c₁ = c₀ := by
          rw [hm1] at hhead1
          simpa using hhead1
        rw [hc₁] at hm1
        have hhead2 :
            (collapseRuns isSpaceJS (collapseRuns isCRLF (trim x))).head? = some c₀ := by
          rw [hm1, collapseRuns_head, if_neg (by simp [hc₀sp])]
        obtain ⟨d₀, hd₀⟩ : ∃ d₀, (trim x).getLast? = some d₀ := by
          cases hg : (trim x).getLast? with
          | none =>
            rw [List.getLast?_eq_none_iff] at hg
            exact absurd hg ht
          | some d => exact ⟨d, rfl⟩
        have hd₀sp : isSpaceJS d₀ = false := trim_getLast_not x d₀ hd₀
        have hd₀cr : isCRLF d₀ = false := by
          by_cases h : isCRLF d₀ = true
          · exact absurd (crlf_imp_space d₀ h) (by simp [hd₀sp])
          · simpa using h
        have hlast1 : (collapseRuns isCRLF (trim x)).getLast? = some d₀ := by
          rw [hct] at hd₀ ⊢
          rw [collapseRuns_getLast isCRLF c₀ d₀ t0 hd₀, if_neg (by simp [hd₀cr])]
        have hlast2 :
            (collapseRuns isSpaceJS (collapseRuns isCRLF (trim x))).getLast? =
              some d₀ := by
          rw [hm1] at hlast1 ⊢
          rw [collapseRuns_getLast isSpaceJS c₀ d₀ m1 hlast1, if_neg (by simp [hd₀sp])]
        have hmem32in : ∀ c ∈ collapseRuns isSpaceJS (collapseRuns isCRLF (trim x)),
            isSpaceJS c = true → c = 32 := by
          intro c hc hsp
          rcases collapseRuns_mem isSpaceJS _ c hc with h32 | ⟨-, hcsp⟩
          · exact h32
          · rw [hcsp] at hsp
            exact Bool.noConfusion hsp
        have hnocrlfin : ∀ c ∈ collapseRuns isSpaceJS (collapseRuns isCRLF (trim x)),
            isCRLF c = false := by
          intro c hc
          rcases collapseRuns_mem isSpaceJS _ c hc with h32 | ⟨hcin, -⟩
          · rw [h32]
            decide
          · rcases collapseRuns_mem isCRLF _ c hcin with h32b | ⟨-, hccr⟩
            · rw [h32b]
              decide
            · exact hccr
        have hheadn : ∀ c, (normalize x).head? = some c → isSpaceJS c = false := by
          intro c hc
          rw [hdef] at hc
          exact toLowerCaseGo_head_not_space _ [] c₀ hhead2 hc₀sp c hc
        have hlastn : ∀ c, (normalize x).getLast? = some c → isSpaceJS c = false := by
          intro c hc
          rw [hdef] at hc
          exact toLowerCaseGo_last_not_space _ [] d₀ hlast2 hd₀sp c hc
        have hmem32 : ∀ c ∈ normalize x, isSpaceJS c = true → c = 32 := by
          intro c hc
          rw [hdef] at hc
          exact toLowerCaseGo_mem32 _ [] hmem32in c hc
        have hnocrlf : ∀ c ∈ normalize x, isCRLF c = false := by
          intro c hc
          rw [hdef] at hc
          exact toLowerCaseGo_not_crlf _ [] hnocrlfin c hc
        have hchain : (normalize x).Chain'
            (fun a b => isSpaceJS a = true → isSpaceJS b = false) := by
          rw [hdef]
          exact toLowerCaseGo_chain _ [] (collapseRuns_chain isSpaceJS _)
        have hfixn : ∀ e ∈ normalize x, e ≠ 931 ∧ e ≠ 304 ∧ lowerSimple e = e := by
          intro e he
          rw [hdef] at he
          exact toLowerCaseGo_fix _ [] e he
        have htrim : trim (normalize x) = normalize x := by
          rw [trim, dropWhile_eq_self_of_head _ _ hheadn]
          exact trimEnd_eq_self_of_getLast _ hlastn
        have hdef2 : normalize (normalize x) =
            toLowerCase (collapseRuns isSpaceJS
              (collapseRuns isCRLF (trim (normalize x)))) := by
          conv_lhs => rw [normalize]
          rw [if_neg hn]
        rw [hdef2, htrim, collapseRuns_eq_self_of_not isCRLF _ hnocrlf,
          collapseRuns_eq_self_of_collapsed isSpaceJS _ hmem32 hchain]
        exact toLowerCaseGo_eq_self _ [] hfixn
  · decide

end UpdateV2
